import Mathlib

/-!
# RAS_EeveeEffectsManager: the post-processing chain of the game engine rasterizer

An embedding of `source/gameengine/Rasterizer/RAS_EeveeEffectsManager.cpp`.

* Objects reached through pointers (`RAS_FrameBuffer`, GPU framebuffers, GPU textures) are
  addresses; `new RAS_FrameBuffer` allocates at the end of an explicit heap.
* The manager and the host records it points into (`m_effects`, `m_txl`, `m_fbl`,
  `m_stl->g_data`, `m_dtxl`) form one state record that every member function transforms.
* Calls into the draw manager, the rasterizer and the scene are appended to `trace`.
* `float` is a type parameter `F`; the arithmetic, the matrix library and the constants of
  `eevee_private.h` are the fields of `Extern`.
* `int` is `Int` (signed overflow is undefined in the source language), pixel sizes are `Nat`.
-/

namespace Upbge

/-- A `float[4][4]`. -/
abbrev Mat4 (F : Type) := Fin 4 → Fin 4 → F

/-- Address of a `RAS_FrameBuffer` object (`RAS_FrameBuffer *`). -/
abbrev FrameBufferPtr := Nat

/-- A `GPUFrameBuffer *`: the one owned by a `RAS_FrameBuffer` (`GetFrameBuffer()`), or any
other framebuffer object of the host. -/
inductive GPUFrameBuffer
  | ofRAS (p : FrameBufferPtr)
  | obj (addr : Nat)
  deriving DecidableEq, Repr

/-- A `GPUTexture *`: the colour or depth attachment of a framebuffer
(`GPU_framebuffer_color_texture`, `GPU_framebuffer_depth_texture`), or any other texture object. -/
inductive GPUTexture
  | color (fb : GPUFrameBuffer)
  | depth (fb : GPUFrameBuffer)
  | obj (addr : Nat)
  deriving DecidableEq, Repr

/-- The framebuffer slot enumeration of the rasterizer; the manager only uses the first slot. -/
inductive FrameBufferType
  | RAS_FRAMEBUFFER_EYE_LEFT0
  | other (n : Nat)
  deriving DecidableEq, Repr

/-- What the constructor of `RAS_FrameBuffer` is given. -/
structure RAS_FrameBuffer where
  width : Nat
  height : Nat
  hdrType : Nat
  fbType : FrameBufferType
  deriving DecidableEq, Repr

/-- The live `RAS_FrameBuffer` objects; the address of an object is its position. -/
abbrev Heap := List RAS_FrameBuffer

/-- The expression `new RAS_FrameBuffer(...)`: a fresh address past every live object. -/
def newFrameBuffer (h : Heap) (o : RAS_FrameBuffer) : Heap × FrameBufferPtr :=
  (h ++ [o], h.length)

/-- Pixel dimensions of the object at an address, if there is one. -/
def dimensions (h : Heap) (p : FrameBufferPtr) : Option (Nat × Nat) :=
  (h.get? p).map (fun o => (o.width, o.height))

/-- The canvas as the constructor queries it: `GetWidth()`, `GetHeight()`, `GetHdrType()`. -/
structure RAS_ICanvas where
  width : Nat
  height : Nat
  hdrType : Nat
  deriving DecidableEq, Repr

/-- The three entries of the property set `m_props` that the manager looks up by name. -/
structure IDProperty (F : Type) where
  motion_blur_enable : Bool
  motion_blur_shutter : F
  motion_blur_samples : Int

/-- The world of the scene as the constructor inspects it. -/
structure World where
  use_nodes : Bool
  nodetree : Bool
  deriving DecidableEq, Repr

/-- The active camera as the manager queries it. -/
structure KX_Camera (F : Type) where
  modelview : Mat4 F
  projection : Mat4 F
  cameraToWorld : Mat4 F
  worldToCamera : Mat4 F
  sensor_x : F

/-- What the host holds when a member function runs: the contents of the property set behind
`m_props`, the active camera, `DRW_state_draw_support()` and the volumetrics flag of the scene
layer data. -/
structure Host (F : Type) where
  props : IDProperty F
  cam : KX_Camera F
  draw_support : Bool
  use_colored_transmit : Bool

/-- Declarations the source uses and does not define: the effect bits of `eevee_private.h`,
`float` arithmetic and literals, and the matrix and sampling library. -/
structure Extern (F : Type) where
  EFFECT_TAA : Nat
  EFFECT_SSR : Nat
  EFFECT_VOLUMETRIC : Nat
  EFFECT_DOF : Nat
  EFFECT_BLOOM : Nat
  lit : Rat → F
  ofInt : Int → F
  fmul : F → F → F
  fdiv : F → F → F
  fsub : F → F → F
  MT_mul : Mat4 F → Mat4 F → Mat4 F
  MT_Matrix4x4_getValue : Mat4 F → Mat4 F
  MT_Transform_getValue : Mat4 F → Mat4 F
  compare_m4m4_FLT_MIN : Mat4 F → Mat4 F → Bool
  BLI_halton_2D : Int → F × F
  window_translate_m4 : Mat4 F → Mat4 F → F → F → Mat4 F
  mul_m4_m4m4 : Mat4 F → Mat4 F → Mat4 F
  invert_m4_m4 : Mat4 F → Mat4 F

/-- The fields of `EEVEE_EffectsInfo` the manager reads or writes. -/
structure EEVEE_EffectsInfo (F : Type) where
  enabled_effects : Nat
  use_ao : Bool
  motion_blur_samples : Int
  bloom_iteration_ct : Int
  ssr_ray_count : Int
  taa_total_sample : Int
  taa_current_sample : Int
  taa_alpha : F
  prev_drw_persmat : Mat4 F
  prev_drw_support : Bool
  overide_winmat : Mat4 F
  overide_persmat : Mat4 F
  overide_persinv : Mat4 F
  overide_wininv : Mat4 F
  current_ndc_to_world : Mat4 F
  past_world_to_ndc : Mat4 F
  dof_params_2 : F
  dof_layer_select : F × F
  source_buffer : GPUTexture
  unf_source_buffer : GPUTexture
  unf_base_buffer : GPUTexture
  target_buffer : GPUFrameBuffer
  source_texel_size : F × F
  blit_texel_size : F × F
  unf_source_texel_size : F × F
  downsamp_texel_size : Int → F × F

/-- The fields of `EEVEE_TextureList` the manager reads or writes. -/
structure EEVEE_TextureList where
  bloom_blit : GPUTexture
  bloom_downsample : Int → GPUTexture
  bloom_upsample : Int → GPUTexture
  dof_down_far : GPUTexture
  dof_down_near : GPUTexture
  color_post : GPUTexture
  color_double_buffer : GPUTexture
  ssr_normal_input : GPUTexture
  ssr_specrough_input : GPUTexture

/-- The fields of `EEVEE_FramebufferList` the manager reads or writes. -/
structure EEVEE_FramebufferList where
  bloom_blit_fb : GPUFrameBuffer
  bloom_down_fb : Int → GPUFrameBuffer
  bloom_accum_fb : Int → GPUFrameBuffer
  dof_down_fb : GPUFrameBuffer
  dof_scatter_far_fb : GPUFrameBuffer
  dof_scatter_near_fb : GPUFrameBuffer
  volumetric_fb : GPUFrameBuffer
  screen_tracing_fb : GPUFrameBuffer
  downsample_fb : GPUFrameBuffer
  effect_fb : GPUFrameBuffer
  double_buffer : GPUFrameBuffer
  depth_double_buffer_fb : GPUFrameBuffer

/-- The fields of `m_stl->g_data` the manager reads or writes. -/
structure EEVEE_PrivateData (F : Type) where
  volumetric : GPUTexture
  volumetric_transmit : GPUTexture
  ssr_hit_output : Int → GPUTexture
  prev_persmat : Mat4 F

/-- The entries of `EEVEE_PassList` the manager draws. -/
inductive DRWPass
  | bloom_blit
  | bloom_downsample_first
  | bloom_downsample
  | bloom_upsample
  | bloom_resolve
  | motion_blur
  | dof_down
  | dof_scatter
  | dof_resolve
  | volumetric_integrate_ps
  | volumetric_resolve_transmit_ps
  | volumetric_resolve_ps
  | ssr_raytrace
  | ssr_resolve
  | taa_resolve
  deriving DecidableEq, Repr

/-- The matrix slots of `DRW_viewport_matrix_override_set`. -/
inductive DRWViewportMatrixType
  | DRW_MAT_PERS
  | DRW_MAT_PERSINV
  | DRW_MAT_WIN
  | DRW_MAT_WININV
  deriving DecidableEq, Repr

/-- One call leaving the manager, with its arguments. A draw records the contents of
`m_effects` at the time of the call, which is what the shading groups of the pass read their
uniforms from. `InitDof` records that the member function of that name was entered. -/
inductive Event (F : Type)
  | DRW_framebuffer_bind (fb : GPUFrameBuffer)
  | DRW_draw_pass (pass : DRWPass) (effects : EEVEE_EffectsInfo F)
  | DRW_framebuffer_clear (color depth stencil : Bool) (clear_col : F × F × F × F) (clear_depth : F)
  | DRW_framebuffer_texture_attach (fb : GPUFrameBuffer) (tex : GPUTexture) (slot mip : Int)
  | DRW_framebuffer_texture_detach (tex : GPUTexture)
  | DRW_framebuffer_blit (src dst : GPUFrameBuffer) (depth : Bool)
  | DRW_viewport_matrix_override_set (mat : Mat4 F) (type : DRWViewportMatrixType)
  | SetViewport (x y width height : Nat)
  | Enable_RAS_DEPTH_TEST
  | Disable_RAS_DEPTH_TEST
  | EEVEE_create_minmax_buffer (depth : GPUTexture) (layer : Int)
  | EEVEE_effects_replace_e_data_depth (depth : GPUTexture)
  | EEVEE_downsample_buffer (fb : GPUFrameBuffer) (tex : GPUTexture) (level : Int)
  | CalculateVisibleMeshes (cam : KX_Camera F) (layer : Int)
  | RenderBuckets
  | InitDof

/-- The `EEVEE_Data` handed to the constructor, as far as the manager uses it. -/
structure EEVEE_Data (F : Type) where
  effects : EEVEE_EffectsInfo F
  txl : EEVEE_TextureList
  fbl : EEVEE_FramebufferList
  g_data : EEVEE_PrivateData F

/-- The manager: its own members, the host records its pointers lead to, and the calls it
has issued so far. -/
structure RAS_EeveeEffectsManager (F : Type) where
  m_dofInitialized : Bool
  m_bloomTarget : FrameBufferPtr
  m_blurTarget : FrameBufferPtr
  m_dofTarget : FrameBufferPtr
  m_width : Nat
  m_height : Nat
  m_shutter : F
  m_useAO : Bool
  m_useVolumetricNodes : Bool
  effects : EEVEE_EffectsInfo F
  txl : EEVEE_TextureList
  fbl : EEVEE_FramebufferList
  g_data : EEVEE_PrivateData F
  dtxl_depth : GPUTexture
  trace : List (Event F)

namespace RAS_EeveeEffectsManager

variable {F : Type}

/-- Append one outgoing call to the trace. -/
def emit (s : RAS_EeveeEffectsManager F) (e : Event F) : RAS_EeveeEffectsManager F :=
  { s with trace := s.trace ++ [e] }

/-- The call `DRW_draw_pass(pass)`. -/
def draw_pass (s : RAS_EeveeEffectsManager F) (pass : DRWPass) : RAS_EeveeEffectsManager F :=
  s.emit (Event.DRW_draw_pass pass s.effects)

/-- The test `(m_effects->enabled_effects & bit) != 0`. -/
def enabled (s : RAS_EeveeEffectsManager F) (bit : Nat) : Bool :=
  (s.effects.enabled_effects &&& bit) != 0

/-- The constructor (lines 46-84): sizes from the canvas plus one, the three targets
allocated in the order depth of field, bloom, motion blur, and the two motion-blur
properties read from the property set. -/
def construct (heap : Heap) (vedata : EEVEE_Data F) (dtxl_depth : GPUTexture)
    (canvas : RAS_ICanvas) (props : IDProperty F) (world : Option World) :
    Heap × RAS_EeveeEffectsManager F :=
  let m_width := canvas.width + 1
  let m_height := canvas.height + 1
  let a := newFrameBuffer heap
    ⟨m_width / 2, m_height / 2, canvas.hdrType, FrameBufferType.RAS_FRAMEBUFFER_EYE_LEFT0⟩
  let b := newFrameBuffer a.1
    ⟨m_width, m_height, canvas.hdrType, FrameBufferType.RAS_FRAMEBUFFER_EYE_LEFT0⟩
  let effects := { vedata.effects with motion_blur_samples := props.motion_blur_samples }
  let c := newFrameBuffer b.1
    ⟨m_width, m_height, canvas.hdrType, FrameBufferType.RAS_FRAMEBUFFER_EYE_LEFT0⟩
  (c.1,
   { m_dofInitialized := false
     m_bloomTarget := b.2
     m_blurTarget := c.2
     m_dofTarget := a.2
     m_width := m_width
     m_height := m_height
     m_shutter := props.motion_blur_shutter
     m_useAO := effects.use_ao
     m_useVolumetricNodes :=
       match world with
       | some w => w.use_nodes && w.nodetree
       | none => false
     effects := effects
     txl := vedata.txl
     fbl := vedata.fbl
     g_data := vedata.g_data
     dtxl_depth := dtxl_depth
     trace := [] })

/-- The member `InitDof` (lines 93-104). -/
def InitDof (X : Extern F) (host : Host F) (s : RAS_EeveeEffectsManager F) :
    RAS_EeveeEffectsManager F :=
  let s := s.emit Event.InitDof
  if s.enabled X.EFFECT_DOF then
    let sensorSize := host.cam.sensor_x
    let scaleCamera := X.lit (1 / 1000)
    let sensorScaled := X.fmul scaleCamera sensorSize
    { s with effects := { s.effects with
        dof_params_2 := X.fdiv (X.ofInt s.m_width) (X.fmul (X.lit 1) sensorScaled) } }
  else s

/-- The downsample loop of `RenderBloom` (lines 130-139), entered at index `i`. -/
def bloomDownsampleLoop (s : RAS_EeveeEffectsManager F) (last : GPUTexture) (i : Int) :
    RAS_EeveeEffectsManager F × GPUTexture :=
  if i < s.effects.bloom_iteration_ct then
    let s1 : RAS_EeveeEffectsManager F := { s with effects := { s.effects with
      unf_source_texel_size := s.effects.downsamp_texel_size (i - 1)
      unf_source_buffer := last } }
    let s2 := s1.emit (Event.DRW_framebuffer_bind (s1.fbl.bloom_down_fb i))
    let s3 := s2.draw_pass DRWPass.bloom_downsample
    bloomDownsampleLoop s3 (s3.txl.bloom_downsample i) (i + 1)
  else (s, last)
termination_by (s.effects.bloom_iteration_ct - i).toNat
decreasing_by
  simp only [draw_pass, emit]
  omega

/-- The upsample loop of `RenderBloom` (lines 142-151), entered at index `i`. -/
def bloomUpsampleLoop (s : RAS_EeveeEffectsManager F) (last : GPUTexture) (i : Int) :
    RAS_EeveeEffectsManager F × GPUTexture :=
  if 0 ≤ i then
    let s1 : RAS_EeveeEffectsManager F := { s with effects := { s.effects with
      unf_source_texel_size := s.effects.downsamp_texel_size i
      unf_source_buffer := s.txl.bloom_downsample i
      unf_base_buffer := last } }
    let s2 := s1.emit (Event.DRW_framebuffer_bind (s1.fbl.bloom_accum_fb i))
    let s3 := s2.draw_pass DRWPass.bloom_upsample
    bloomUpsampleLoop s3 (s3.txl.bloom_upsample i) (i - 1)
  else (s, last)
termination_by (i + 1).toNat
decreasing_by omega

/-- The blit step of `RenderBloom` (lines 112-119): extract bright pixels. -/
def bloomBlit (s : RAS_EeveeEffectsManager F) (inputfb : FrameBufferPtr) :
    RAS_EeveeEffectsManager F :=
  let s : RAS_EeveeEffectsManager F := { s with effects := { s.effects with
    source_buffer := GPUTexture.color (GPUFrameBuffer.ofRAS inputfb) } }
  let s : RAS_EeveeEffectsManager F := { s with effects := { s.effects with
    unf_source_texel_size := s.effects.source_texel_size } }
  let s : RAS_EeveeEffectsManager F := { s with effects := { s.effects with
    unf_source_buffer := s.effects.source_buffer } }
  let s := s.emit (Event.DRW_framebuffer_bind s.fbl.bloom_blit_fb)
  s.draw_pass DRWPass.bloom_blit

/-- The first downsample of `RenderBloom` (lines 122-126). -/
def bloomDownsampleFirst (s : RAS_EeveeEffectsManager F) : RAS_EeveeEffectsManager F :=
  let s : RAS_EeveeEffectsManager F := { s with effects := { s.effects with
    unf_source_texel_size := s.effects.blit_texel_size } }
  let s : RAS_EeveeEffectsManager F := { s with effects := { s.effects with
    unf_source_buffer := s.txl.bloom_blit } }
  let s := s.emit (Event.DRW_framebuffer_bind (s.fbl.bloom_down_fb 0))
  s.draw_pass DRWPass.bloom_downsample_first

/-- The resolve step of `RenderBloom` (lines 154-163). -/
def bloomResolve (s : RAS_EeveeEffectsManager F) (last : GPUTexture) :
    RAS_EeveeEffectsManager F × FrameBufferPtr :=
  let s : RAS_EeveeEffectsManager F := { s with effects := { s.effects with
    unf_source_texel_size := s.effects.downsamp_texel_size 0 } }
  let s : RAS_EeveeEffectsManager F := { s with effects := { s.effects with
    unf_source_buffer := last } }
  let s : RAS_EeveeEffectsManager F := { s with effects := { s.effects with
    unf_base_buffer := s.effects.source_buffer } }
  let s := s.emit (Event.SetViewport 0 0 s.m_width s.m_height)
  let s := s.emit (Event.DRW_framebuffer_bind (GPUFrameBuffer.ofRAS s.m_bloomTarget))
  let s := s.draw_pass DRWPass.bloom_resolve
  (s, s.m_bloomTarget)

/-- The member `RenderBloom` (lines 106-166): blit, first downsample, the downsample loop
from index 1, the upsample loop from index `bloom_iteration_ct - 2`, resolve. -/
def RenderBloom (X : Extern F) (s : RAS_EeveeEffectsManager F) (inputfb : FrameBufferPtr) :
    RAS_EeveeEffectsManager F × FrameBufferPtr :=
  if s.enabled X.EFFECT_BLOOM then
    let s := bloomBlit s inputfb
    let s := bloomDownsampleFirst s
    let d := bloomDownsampleLoop s (s.txl.bloom_downsample 0) 1
    let u := bloomUpsampleLoop d.1 d.2 (d.1.effects.bloom_iteration_ct - 2)
    bloomResolve u.1 u.2
  else (s, inputfb)

/-- The three statements `m[3][k] *= m_shutter` for `k = 0, 1, 2`. -/
def scaleRow3 (X : Extern F) (m : Mat4 F) (shutter : F) : Mat4 F :=
  fun i j => if i = 3 ∧ j.val < 3 then X.fmul (m i j) shutter else m i j

/-- The member `RenderMotionBlur` (lines 168-199). The enable flag is looked up in the
property set behind `m_props` when the function runs. -/
def RenderMotionBlur (X : Extern F) (host : Host F) (s : RAS_EeveeEffectsManager F)
    (inputfb : FrameBufferPtr) : RAS_EeveeEffectsManager F × FrameBufferPtr :=
  if host.props.motion_blur_enable then
    let cam := host.cam
    let s : RAS_EeveeEffectsManager F := { s with effects := { s.effects with
      source_buffer := GPUTexture.color (GPUFrameBuffer.ofRAS inputfb) } }
    let s : RAS_EeveeEffectsManager F :=
      { s with dtxl_depth := GPUTexture.depth (GPUFrameBuffer.ofRAS inputfb) }
    let camToWorld := scaleRow3 X (X.MT_Transform_getValue cam.cameraToWorld) s.m_shutter
    let s : RAS_EeveeEffectsManager F := { s with effects := { s.effects with
      current_ndc_to_world := camToWorld } }
    let s := s.emit (Event.SetViewport 0 0 s.m_width s.m_height)
    let s := s.emit (Event.DRW_framebuffer_bind (GPUFrameBuffer.ofRAS s.m_blurTarget))
    let s := s.draw_pass DRWPass.motion_blur
    let worldToCam := scaleRow3 X (X.MT_Transform_getValue cam.worldToCamera) s.m_shutter
    let s : RAS_EeveeEffectsManager F := { s with effects := { s.effects with
      past_world_to_ndc := worldToCam } }
    (s, s.m_blurTarget)
  else (s, inputfb)

/-- The lazy initialisation of `RenderDof` (lines 206-212). -/
def dofLazyInit (X : Extern F) (host : Host F) (s : RAS_EeveeEffectsManager F) :
    RAS_EeveeEffectsManager F :=
  if !s.m_dofInitialized then
    { InitDof X host s with m_dofInitialized := true }
  else s

/-- The downsample step of `RenderDof` (lines 216-221). -/
def dofDownsample (s : RAS_EeveeEffectsManager F) (inputfb : FrameBufferPtr) :
    RAS_EeveeEffectsManager F :=
  let s : RAS_EeveeEffectsManager F := { s with effects := { s.effects with
    source_buffer := GPUTexture.color (GPUFrameBuffer.ofRAS inputfb) } }
  let s : RAS_EeveeEffectsManager F :=
    { s with dtxl_depth := GPUTexture.depth (GPUFrameBuffer.ofRAS inputfb) }
  let s := s.emit (Event.DRW_framebuffer_bind s.fbl.dof_down_fb)
  s.draw_pass DRWPass.dof_down

/-- The far scatter of `RenderDof` (lines 223-228). -/
def dofScatterFar (X : Extern F) (s : RAS_EeveeEffectsManager F) :
    RAS_EeveeEffectsManager F :=
  let clear_col : F × F × F × F := (X.lit 0, X.lit 0, X.lit 0, X.lit 0)
  let s : RAS_EeveeEffectsManager F := { s with effects := { s.effects with
    unf_source_buffer := s.txl.dof_down_far } }
  let s : RAS_EeveeEffectsManager F := { s with effects := { s.effects with
    dof_layer_select := (X.lit 0, X.lit 1) } }
  let s := s.emit (Event.DRW_framebuffer_bind s.fbl.dof_scatter_far_fb)
  let s := s.emit (Event.DRW_framebuffer_clear true false false clear_col (X.lit 0))
  s.draw_pass DRWPass.dof_scatter

/-- The near scatter of `RenderDof` (lines 230-241). -/
def dofScatterNear (X : Extern F) (s : RAS_EeveeEffectsManager F) :
    RAS_EeveeEffectsManager F :=
  let clear_col : F × F × F × F := (X.lit 0, X.lit 0, X.lit 0, X.lit 0)
  let s : RAS_EeveeEffectsManager F :=
    if s.enabled X.EFFECT_BLOOM then
      { s with effects := { s.effects with unf_source_buffer := s.txl.bloom_downsample 0 } }
    else
      { s with effects := { s.effects with unf_source_buffer := s.txl.dof_down_near } }
  let s : RAS_EeveeEffectsManager F := { s with effects := { s.effects with
    dof_layer_select := (X.lit 1, X.lit 0) } }
  let s := s.emit (Event.DRW_framebuffer_bind s.fbl.dof_scatter_near_fb)
  let s := s.emit (Event.DRW_framebuffer_clear true false false clear_col (X.lit 0))
  s.draw_pass DRWPass.dof_scatter

/-- The resolve step of `RenderDof` (lines 243-247). -/
def dofResolve (s : RAS_EeveeEffectsManager F) : RAS_EeveeEffectsManager F × FrameBufferPtr :=
  let s := s.emit (Event.DRW_framebuffer_bind (GPUFrameBuffer.ofRAS s.m_dofTarget))
  let s := s.draw_pass DRWPass.dof_resolve
  (s, s.m_dofTarget)

/-- The member `RenderDof` (lines 201-250). -/
def RenderDof (X : Extern F) (host : Host F) (s : RAS_EeveeEffectsManager F)
    (inputfb : FrameBufferPtr) : RAS_EeveeEffectsManager F × FrameBufferPtr :=
  if s.enabled X.EFFECT_DOF then
    let s := dofLazyInit X host s
    let s := dofDownsample s inputfb
    let s := dofScatterFar X s
    let s := dofScatterNear X s
    dofResolve s
  else (s, inputfb)

/-- The member `CreateMinMaxDepth` (lines 252-261). -/
def CreateMinMaxDepth (X : Extern F) (s : RAS_EeveeEffectsManager F)
    (inputfb : FrameBufferPtr) : RAS_EeveeEffectsManager F :=
  if s.m_useAO || s.enabled X.EFFECT_SSR then
    s.emit (Event.EEVEE_create_minmax_buffer
      (GPUTexture.depth (GPUFrameBuffer.ofRAS inputfb)) (-1))
  else s

/-- The integration step of `RenderVolumetrics` (lines 267-277), at half resolution. -/
def volumetricIntegrate (host : Host F) (s : RAS_EeveeEffectsManager F)
    (inputfb : FrameBufferPtr) : RAS_EeveeEffectsManager F :=
  let s : RAS_EeveeEffectsManager F :=
    { s with dtxl_depth := GPUTexture.depth (GPUFrameBuffer.ofRAS inputfb) }
  let s := s.emit (Event.EEVEE_effects_replace_e_data_depth
    (GPUTexture.depth (GPUFrameBuffer.ofRAS inputfb)))
  let s := s.emit
    (Event.DRW_framebuffer_texture_attach s.fbl.volumetric_fb s.g_data.volumetric 0 0)
  let s :=
    if host.use_colored_transmit then
      s.emit (Event.DRW_framebuffer_texture_attach
        s.fbl.volumetric_fb s.g_data.volumetric_transmit 1 0)
    else s
  let s := s.emit (Event.DRW_framebuffer_bind s.fbl.volumetric_fb)
  s.draw_pass DRWPass.volumetric_integrate_ps

/-- The resolve step of `RenderVolumetrics` (lines 279-285), at full resolution. -/
def volumetricResolve (host : Host F) (s : RAS_EeveeEffectsManager F)
    (inputfb : FrameBufferPtr) : RAS_EeveeEffectsManager F :=
  let s := s.emit (Event.SetViewport 0 0 s.m_width s.m_height)
  let s := s.emit (Event.DRW_framebuffer_bind (GPUFrameBuffer.ofRAS inputfb))
  let s :=
    if host.use_colored_transmit then
      s.draw_pass DRWPass.volumetric_resolve_transmit_ps
    else s
  s.draw_pass DRWPass.volumetric_resolve_ps

/-- The restore step of `RenderVolumetrics` (lines 287-291). -/
def volumetricRestore (host : Host F) (s : RAS_EeveeEffectsManager F) :
    RAS_EeveeEffectsManager F :=
  let s := s.emit (Event.DRW_framebuffer_texture_detach s.g_data.volumetric)
  if host.use_colored_transmit then
    s.emit (Event.DRW_framebuffer_texture_detach s.g_data.volumetric_transmit)
  else s

/-- The member `RenderVolumetrics` (lines 263-296). -/
def RenderVolumetrics (X : Extern F) (host : Host F) (s : RAS_EeveeEffectsManager F)
    (inputfb : FrameBufferPtr) : RAS_EeveeEffectsManager F × FrameBufferPtr :=
  if s.enabled X.EFFECT_VOLUMETRIC && s.m_useVolumetricNodes then
    let s := volumetricIntegrate host s inputfb
    let s := volumetricResolve host s inputfb
    let s := volumetricRestore host s
    (s, inputfb)
  else (s, inputfb)

/-- The attach loop of `DoSSR` (lines 316-318), entered at index `i`. -/
def ssrAttachLoop (s : RAS_EeveeEffectsManager F) (i : Int) : RAS_EeveeEffectsManager F :=
  if i < s.effects.ssr_ray_count then
    ssrAttachLoop
      (s.emit (Event.DRW_framebuffer_texture_attach
        s.fbl.screen_tracing_fb (s.g_data.ssr_hit_output i) i 0))
      (i + 1)
  else s
termination_by (s.effects.ssr_ray_count - i).toNat
decreasing_by
  simp only [emit]
  omega

/-- The detach loop of `DoSSR` (lines 324-326), entered at index `i`. -/
def ssrDetachLoop (s : RAS_EeveeEffectsManager F) (i : Int) : RAS_EeveeEffectsManager F :=
  if i < s.effects.ssr_ray_count then
    ssrDetachLoop
      (s.emit (Event.DRW_framebuffer_texture_detach (s.g_data.ssr_hit_output i)))
      (i + 1)
  else s
termination_by (s.effects.ssr_ray_count - i).toNat
decreasing_by
  simp only [emit]
  omega

/-- The uniform setup of `DoSSR` (lines 302-314). -/
def ssrSetup (X : Extern F) (host : Host F) (s : RAS_EeveeEffectsManager F)
    (inputfb : FrameBufferPtr) : RAS_EeveeEffectsManager F :=
  let s : RAS_EeveeEffectsManager F := { s with txl := { s.txl with
    color_double_buffer := GPUTexture.color (GPUFrameBuffer.ofRAS inputfb) } }
  let s : RAS_EeveeEffectsManager F :=
    { s with dtxl_depth := GPUTexture.depth (GPUFrameBuffer.ofRAS inputfb) }
  let s := s.emit (Event.EEVEE_effects_replace_e_data_depth s.dtxl_depth)
  let cam := host.cam
  let prevpers := X.MT_mul cam.projection cam.modelview
  { s with g_data := { s.g_data with
      prev_persmat := X.MT_Matrix4x4_getValue prevpers } }

/-- The raytrace of `DoSSR` (lines 319-322). -/
def ssrRaytrace (s : RAS_EeveeEffectsManager F) : RAS_EeveeEffectsManager F :=
  let s := s.emit (Event.DRW_framebuffer_bind s.fbl.screen_tracing_fb)
  s.draw_pass DRWPass.ssr_raytrace

/-- The downsample, resolve and restore of `DoSSR` (lines 328-340). -/
def ssrResolve (s : RAS_EeveeEffectsManager F) (inputfb : FrameBufferPtr) :
    RAS_EeveeEffectsManager F :=
  let s := s.emit
    (Event.EEVEE_downsample_buffer s.fbl.downsample_fb s.txl.color_double_buffer 9)
  let s := s.emit (Event.DRW_framebuffer_texture_detach s.dtxl_depth)
  let s := s.emit (Event.DRW_framebuffer_texture_detach s.txl.ssr_normal_input)
  let s := s.emit (Event.DRW_framebuffer_texture_detach s.txl.ssr_specrough_input)
  let s := s.emit (Event.DRW_framebuffer_bind (GPUFrameBuffer.ofRAS inputfb))
  let s := s.draw_pass DRWPass.ssr_resolve
  let s := s.emit (Event.DRW_framebuffer_texture_attach
    (GPUFrameBuffer.ofRAS inputfb) s.dtxl_depth 0 0)
  let s := s.emit (Event.DRW_framebuffer_texture_attach
    (GPUFrameBuffer.ofRAS inputfb) s.txl.ssr_normal_input 1 0)
  s.emit (Event.DRW_framebuffer_texture_attach
    (GPUFrameBuffer.ofRAS inputfb) s.txl.ssr_specrough_input 2 0)

/-- The member `DoSSR` (lines 298-342). -/
def DoSSR (X : Extern F) (host : Host F) (s : RAS_EeveeEffectsManager F)
    (inputfb : FrameBufferPtr) : RAS_EeveeEffectsManager F :=
  if s.enabled X.EFFECT_SSR then
    let s := ssrSetup X host s inputfb
    let s := ssrAttachLoop s 0
    let s := ssrRaytrace s
    let s := ssrDetachLoop s 0
    ssrResolve s inputfb
  else s

/-- The sample step of `DoTaa` (lines 363-393): advance the counter and jitter the window
matrix, or start over at sample 1. -/
def taaSample (X : Extern F) (s : RAS_EeveeEffectsManager F) (view_is_valid : Bool)
    (persmat viewmat : Mat4 F) : RAS_EeveeEffectsManager F :=
  if view_is_valid &&
      (s.effects.taa_total_sample == 0 ||
        decide (s.effects.taa_current_sample < s.effects.taa_total_sample)) then
    let s : RAS_EeveeEffectsManager F := { s with effects := { s.effects with
      taa_current_sample := s.effects.taa_current_sample + 1 } }
    let s : RAS_EeveeEffectsManager F := { s with effects := { s.effects with
      taa_alpha := X.fdiv (X.lit 1) (X.ofInt s.effects.taa_current_sample) } }
    let ht_point := X.BLI_halton_2D (s.effects.taa_current_sample - 1)
    let s : RAS_EeveeEffectsManager F := { s with effects := { s.effects with
      overide_winmat := X.window_translate_m4 s.effects.overide_winmat persmat
        (X.fdiv (X.fsub (X.fmul ht_point.1 (X.lit 2)) (X.lit 1)) (X.ofInt s.m_width))
        (X.fdiv (X.fsub (X.fmul ht_point.2 (X.lit 2)) (X.lit 1)) (X.ofInt s.m_height)) } }
    let s : RAS_EeveeEffectsManager F := { s with effects := { s.effects with
      overide_persmat := X.mul_m4_m4m4 s.effects.overide_winmat viewmat } }
    let s : RAS_EeveeEffectsManager F := { s with effects := { s.effects with
      overide_persinv := X.invert_m4_m4 s.effects.overide_persmat } }
    let s : RAS_EeveeEffectsManager F := { s with effects := { s.effects with
      overide_wininv := X.invert_m4_m4 s.effects.overide_winmat } }
    let s := s.emit (Event.DRW_viewport_matrix_override_set
      s.effects.overide_persmat DRWViewportMatrixType.DRW_MAT_PERS)
    let s := s.emit (Event.DRW_viewport_matrix_override_set
      s.effects.overide_persinv DRWViewportMatrixType.DRW_MAT_PERSINV)
    let s := s.emit (Event.DRW_viewport_matrix_override_set
      s.effects.overide_winmat DRWViewportMatrixType.DRW_MAT_WIN)
    let s := s.emit (Event.DRW_viewport_matrix_override_set
      s.effects.overide_wininv DRWViewportMatrixType.DRW_MAT_WININV)
    s
  else
    { s with effects := { s.effects with taa_current_sample := 1 } }

/-- The resolve step of `DoTaa` (lines 397-418). -/
def taaResolve (s : RAS_EeveeEffectsManager F) (inputfb : FrameBufferPtr) :
    RAS_EeveeEffectsManager F :=
  if s.effects.taa_current_sample != 1 then
    let s := s.emit (Event.DRW_framebuffer_bind s.fbl.effect_fb)
    let s := s.draw_pass DRWPass.taa_resolve
    let main := GPUFrameBuffer.ofRAS inputfb
    let s := s.emit (Event.DRW_framebuffer_blit s.fbl.depth_double_buffer_fb main true)
    let s : RAS_EeveeEffectsManager F := { s with fbl := { s.fbl with
      effect_fb := s.fbl.double_buffer
      double_buffer := s.fbl.effect_fb } }
    let s : RAS_EeveeEffectsManager F := { s with txl := { s.txl with
      color_post := s.txl.color_double_buffer
      color_double_buffer := s.txl.color_post } }
    let s : RAS_EeveeEffectsManager F := { s with effects := { s.effects with
      source_buffer := s.txl.color_double_buffer } }
    let s : RAS_EeveeEffectsManager F := { s with effects := { s.effects with
      target_buffer := main } }
    s
  else
    let main := GPUFrameBuffer.ofRAS inputfb
    s.emit (Event.DRW_framebuffer_blit main s.fbl.depth_double_buffer_fb true)

/-- The redraw step of `DoTaa` (lines 420-427). -/
def taaRedraw (host : Host F) (s : RAS_EeveeEffectsManager F) (inputfb : FrameBufferPtr) :
    RAS_EeveeEffectsManager F :=
  if s.effects.taa_total_sample == 0 ||
      decide (s.effects.taa_current_sample < s.effects.taa_total_sample) then
    let s := s.emit (Event.CalculateVisibleMeshes host.cam 0)
    let s := s.emit (Event.DRW_framebuffer_bind (GPUFrameBuffer.ofRAS inputfb))
    let s := s.emit Event.RenderBuckets
    s
  else s

/-- The matrix `persmat` of `DoTaa` (lines 350-355): projection times view. -/
def taaPersmat (X : Extern F) (host : Host F) : Mat4 F :=
  X.MT_Matrix4x4_getValue (X.MT_mul host.cam.projection host.cam.modelview)

/-- The value of `view_is_valid` in `DoTaa` once lines 356-360 have run. -/
def taaViewIsValid (X : Extern F) (host : Host F) (s : RAS_EeveeEffectsManager F) : Bool :=
  X.compare_m4m4_FLT_MIN (taaPersmat X host) s.effects.prev_drw_persmat &&
    (s.effects.prev_drw_support == host.draw_support)

/-- The state of `DoTaa` once lines 350-361 have run: the window matrix override is the
projection, and the previous matrix and support flag are those of this frame. -/
def taaRecordView (X : Extern F) (host : Host F) (s : RAS_EeveeEffectsManager F) :
    RAS_EeveeEffectsManager F :=
  let s : RAS_EeveeEffectsManager F := { s with effects := { s.effects with
    overide_winmat := X.MT_Matrix4x4_getValue host.cam.projection } }
  let s : RAS_EeveeEffectsManager F := { s with effects := { s.effects with
    prev_drw_persmat := taaPersmat X host } }
  { s with effects := { s.effects with prev_drw_support := host.draw_support } }

/-- The member `DoTaa` (lines 344-429). -/
def DoTaa (X : Extern F) (host : Host F) (s : RAS_EeveeEffectsManager F)
    (inputfb : FrameBufferPtr) : RAS_EeveeEffectsManager F :=
  if s.enabled X.EFFECT_TAA then
    let viewmat := X.MT_Matrix4x4_getValue host.cam.modelview
    let view_is_valid := taaViewIsValid X host s
    let s := taaRecordView X host s
    let s := taaSample X s view_is_valid (taaPersmat X host) viewmat
    let s := taaResolve s inputfb
    taaRedraw host s inputfb
  else s

/-- The member `RenderEeveeEffects` (lines 432-453). -/
def RenderEeveeEffects (X : Extern F) (host : Host F) (s : RAS_EeveeEffectsManager F)
    (inputfb : FrameBufferPtr) : RAS_EeveeEffectsManager F × FrameBufferPtr :=
  let s := DoTaa X host s inputfb
  let s := s.emit Event.Disable_RAS_DEPTH_TEST
  let s := CreateMinMaxDepth X s inputfb
  let s := DoSSR X host s inputfb
  let r := RenderVolumetrics X host s inputfb
  let r := RenderMotionBlur X host r.1 r.2
  let r := RenderDof X host r.1 r.2
  let r := RenderBloom X r.1 r.2
  (r.1.emit Event.Enable_RAS_DEPTH_TEST, r.2)

/-- The members the constructor sets once, together with the effect mask: effect mask,
bloom target, motion-blur target, depth-of-field target, width, height. -/
def static (s : RAS_EeveeEffectsManager F) :
    Nat × FrameBufferPtr × FrameBufferPtr × FrameBufferPtr × Nat × Nat :=
  (s.effects.enabled_effects, s.m_bloomTarget, s.m_blurTarget, s.m_dofTarget,
    s.m_width, s.m_height)

/-- The calls issued between an earlier state `s` and a later state `t`. -/
def issued (s t : RAS_EeveeEffectsManager F) : List (Event F) :=
  t.trace.drop s.trace.length

end RAS_EeveeEffectsManager

/-- Whether an outgoing call is a draw of the given pass. -/
def Event.isDraw {F : Type} (pass : DRWPass) : Event F → Bool
  | Event.DRW_draw_pass q _ => q == pass
  | _ => false

/-- Number of draws of a pass in a list of calls. -/
def drawCount {F : Type} (pass : DRWPass) (l : List (Event F)) : Nat :=
  l.countP (Event.isDraw pass)

/-- Whether an outgoing call is the entry of `InitDof`. -/
def Event.isInitDof {F : Type} : Event F → Bool
  | Event.InitDof => true
  | _ => false

/-- Number of executions of `InitDof` in a list of calls. -/
def initDofCount {F : Type} (l : List (Event F)) : Nat :=
  l.countP Event.isInitDof

/-! ## Runs of several calls -/

namespace RAS_EeveeEffectsManager

variable {F : Type}

/-- Successive frames of `DoTaa`, each with what the host holds at that frame and the input
target of that frame. -/
def DoTaaFrames (X : Extern F) :
    List (Host F × FrameBufferPtr) → RAS_EeveeEffectsManager F → RAS_EeveeEffectsManager F
  | [], s => s
  | f :: fs, s => DoTaaFrames X fs (DoTaa X f.1 s f.2)

/-- Whether every frame of a run of `DoTaa` is judged view-valid (lines 356-360 yield true
at each frame). -/
def allViewsValid (X : Extern F) :
    List (Host F × FrameBufferPtr) → RAS_EeveeEffectsManager F → Bool
  | [], _ => true
  | f :: fs, s => taaViewIsValid X f.1 s && allViewsValid X fs (DoTaa X f.1 s f.2)

/-- One call of `RenderDof` in a run: what the host holds, the effect mask the host has set
by then, and the input target. -/
structure DofCall (F : Type) where
  host : Host F
  enabled_effects : Nat
  inputfb : FrameBufferPtr

/-- The state with the effect mask replaced, as the host does between calls. -/
def withEnabledEffects (s : RAS_EeveeEffectsManager F) (mask : Nat) :
    RAS_EeveeEffectsManager F :=
  { s with effects := { s.effects with enabled_effects := mask } }

/-- Successive calls of `RenderDof` on one manager, the host setting the mask before each. -/
def RenderDofCalls (X : Extern F) :
    List (DofCall F) → RAS_EeveeEffectsManager F → RAS_EeveeEffectsManager F
  | [], s => s
  | c :: cs, s =>
    RenderDofCalls X cs (RenderDof X c.host (s.withEnabledEffects c.enabled_effects) c.inputfb).1

/-- Whether depth of field is on at a call of a run. -/
def DofCall.dofOn (X : Extern F) (c : DofCall F) : Bool :=
  (c.enabled_effects &&& X.EFFECT_DOF) != 0

/-- The layer selection and the source buffer a draw of the scatter pass is issued with. -/
def scatterDraw : Event F → Option ((F × F) × GPUTexture)
  | Event.DRW_draw_pass DRWPass.dof_scatter e => some (e.dof_layer_select, e.unf_source_buffer)
  | _ => none

/-- The layer selection and the source buffer of each scatter draw in a list of calls. -/
def scatterDraws (l : List (Event F)) : List ((F × F) × GPUTexture) :=
  l.filterMap scatterDraw

/-- The framebuffer and the texture of an attach call. -/
def attachOf : Event F → Option (GPUFrameBuffer × GPUTexture)
  | Event.DRW_framebuffer_texture_attach fb tex _ _ => some (fb, tex)
  | _ => none

/-- The attach calls of a list of calls, in order: framebuffer and texture. -/
def attaches (l : List (Event F)) : List (GPUFrameBuffer × GPUTexture) :=
  l.filterMap attachOf

/-- The texture of a detach call. -/
def detachOf : Event F → Option GPUTexture
  | Event.DRW_framebuffer_texture_detach tex => some tex
  | _ => none

/-- The detach calls of a list of calls, in order. -/
def detaches (l : List (Event F)) : List GPUTexture :=
  l.filterMap detachOf

/-- The scratch textures of `DoSSR`: `ssr_hit_output[i]` for each `i` from 0 below
`ssr_ray_count`, in index order. -/
def ssrHitOutputs (s : RAS_EeveeEffectsManager F) : List GPUTexture :=
  (List.range s.effects.ssr_ray_count.toNat).map (fun k : Nat => s.g_data.ssr_hit_output (k : Int))

/-- The scratch textures of `RenderVolumetrics`: `volumetric`, and `volumetric_transmit`
when colored transmittance is on. -/
def volumetricScratch (host : Host F) (s : RAS_EeveeEffectsManager F) : List GPUTexture :=
  s.g_data.volumetric ::
    (if host.use_colored_transmit then [s.g_data.volumetric_transmit] else [])

/-- The pass and the source buffer of a draw that opens one of the three chained stages:
`motion_blur`, `dof_down` (first draw of depth of field), `bloom_blit` (first draw of
bloom). -/
def stageSource : Event F → Option (DRWPass × GPUTexture)
  | Event.DRW_draw_pass DRWPass.motion_blur e => some (DRWPass.motion_blur, e.source_buffer)
  | Event.DRW_draw_pass DRWPass.dof_down e => some (DRWPass.dof_down, e.source_buffer)
  | Event.DRW_draw_pass DRWPass.bloom_blit e => some (DRWPass.bloom_blit, e.source_buffer)
  | _ => none

/-- The opening draws of the chained stages in a list of calls, each with the source buffer
it reads. -/
def stageSources (l : List (Event F)) : List (DRWPass × GPUTexture) :=
  l.filterMap stageSource

end RAS_EeveeEffectsManager

/-! ## A concrete host, to evaluate the definitions on -/

/-- The identity matrix over the integers. -/
def exampleMat : Mat4 Int := fun i j => if i = j then 1 else 0

/-- Integer stand-ins for the declarations of `Extern`; the matrix comparison is entrywise
equality. -/
def exampleExtern : Extern Int where
  EFFECT_TAA := 256
  EFFECT_SSR := 16
  EFFECT_VOLUMETRIC := 8
  EFFECT_DOF := 4
  EFFECT_BLOOM := 2
  lit := fun q => q.num / q.den
  ofInt := fun i => i
  fmul := fun a b => a * b
  fdiv := fun a b => a / b
  fsub := fun a b => a - b
  MT_mul := fun a b i j => a i 0 * b 0 j + a i 1 * b 1 j + a i 2 * b 2 j + a i 3 * b 3 j
  MT_Matrix4x4_getValue := fun a => a
  MT_Transform_getValue := fun a => a
  compare_m4m4_FLT_MIN := fun a b => decide (∀ i j, a i j = b i j)
  BLI_halton_2D := fun n => (n, n)
  window_translate_m4 := fun w _ _ _ => w
  mul_m4_m4m4 := fun a _ => a
  invert_m4_m4 := fun a => a

/-- Host data with a given effect mask, bloom iteration count, sample budget and sample
counter; every texture and framebuffer is an object of its own. -/
def exampleData (mask : Nat) (bloom_ct taa_total taa_current : Int) : EEVEE_Data Int where
  effects :=
    { enabled_effects := mask
      use_ao := false
      motion_blur_samples := 0
      bloom_iteration_ct := bloom_ct
      ssr_ray_count := 1
      taa_total_sample := taa_total
      taa_current_sample := taa_current
      taa_alpha := 0
      prev_drw_persmat := exampleMat
      prev_drw_support := true
      overide_winmat := exampleMat
      overide_persmat := exampleMat
      overide_persinv := exampleMat
      overide_wininv := exampleMat
      current_ndc_to_world := exampleMat
      past_world_to_ndc := exampleMat
      dof_params_2 := 0
      dof_layer_select := (0, 0)
      source_buffer := GPUTexture.obj 0
      unf_source_buffer := GPUTexture.obj 0
      unf_base_buffer := GPUTexture.obj 0
      target_buffer := GPUFrameBuffer.obj 0
      source_texel_size := (0, 0)
      blit_texel_size := (0, 0)
      unf_source_texel_size := (0, 0)
      downsamp_texel_size := fun _ => (0, 0) }
  txl :=
    { bloom_blit := GPUTexture.obj 1
      bloom_downsample := fun i => GPUTexture.obj (100 + i.toNat)
      bloom_upsample := fun i => GPUTexture.obj (200 + i.toNat)
      dof_down_far := GPUTexture.obj 2
      dof_down_near := GPUTexture.obj 3
      color_post := GPUTexture.obj 4
      color_double_buffer := GPUTexture.obj 5
      ssr_normal_input := GPUTexture.obj 6
      ssr_specrough_input := GPUTexture.obj 7 }
  fbl :=
    { bloom_blit_fb := GPUFrameBuffer.obj 1
      bloom_down_fb := fun i => GPUFrameBuffer.obj (100 + i.toNat)
      bloom_accum_fb := fun i => GPUFrameBuffer.obj (200 + i.toNat)
      dof_down_fb := GPUFrameBuffer.obj 2
      dof_scatter_far_fb := GPUFrameBuffer.obj 3
      dof_scatter_near_fb := GPUFrameBuffer.obj 4
      volumetric_fb := GPUFrameBuffer.obj 5
      screen_tracing_fb := GPUFrameBuffer.obj 6
      downsample_fb := GPUFrameBuffer.obj 7
      effect_fb := GPUFrameBuffer.obj 8
      double_buffer := GPUFrameBuffer.obj 9
      depth_double_buffer_fb := GPUFrameBuffer.obj 10 }
  g_data :=
    { volumetric := GPUTexture.obj 8
      volumetric_transmit := GPUTexture.obj 9
      ssr_hit_output := fun i => GPUTexture.obj (300 + i.toNat)
      prev_persmat := exampleMat }

/-- A host with a camera at the identity and the motion-blur flag as given. -/
def exampleHost (motion_blur_enable : Bool) : Host Int where
  props :=
    { motion_blur_enable := motion_blur_enable
      motion_blur_shutter := 1
      motion_blur_samples := 8 }
  cam :=
    { modelview := exampleMat
      projection := exampleMat
      cameraToWorld := exampleMat
      worldToCamera := exampleMat
      sensor_x := 32 }
  draw_support := true
  use_colored_transmit := false

/-- A canvas reporting 1920 by 1080. -/
def exampleCanvas : RAS_ICanvas := ⟨1920, 1080, 0⟩

/-- A heap holding one full-resolution target at address 0, used as the input. -/
def exampleHeap : Heap := [⟨1921, 1081, 0, FrameBufferType.RAS_FRAMEBUFFER_EYE_LEFT0⟩]

/-- The manager constructed on the example canvas over the example heap. -/
def exampleManager (mask : Nat) (bloom_ct taa_total taa_current : Int) :
    Heap × RAS_EeveeEffectsManager Int :=
  RAS_EeveeEffectsManager.construct exampleHeap (exampleData mask bloom_ct taa_total taa_current)
    (GPUTexture.obj 10) exampleCanvas (exampleHost false).props none

/-- A manager on the example canvas with SSR and volumetrics on (mask 24), three SSR rays
and a world whose node tree is in use. -/
def exampleScratchManager : RAS_EeveeEffectsManager Int :=
  (RAS_EeveeEffectsManager.construct exampleHeap
    { exampleData 24 1 8 0 with
      effects := { (exampleData 24 1 8 0).effects with ssr_ray_count := 3 } }
    (GPUTexture.obj 10) exampleCanvas (exampleHost false).props (some ⟨true, true⟩)).2

/-! ## Frame lemmas: what the stages leave untouched -/

namespace RAS_EeveeEffectsManager

variable {F : Type}

theorem enabled_of_static {a b : RAS_EeveeEffectsManager F} (h : static a = static b)
    (bit : Nat) : a.enabled bit = b.enabled bit := by
  simp only [static, Prod.mk.injEq] at h
  simp only [enabled, h.1]

theorem static_ssrAttachLoop (s : RAS_EeveeEffectsManager F) (i : Int) :
    static (ssrAttachLoop s i) = static s := by
  induction s, i using ssrAttachLoop.induct with
  | case1 s i h ih => rw [ssrAttachLoop, if_pos h]; exact ih
  | case2 s i h => rw [ssrAttachLoop, if_neg h]

theorem static_ssrDetachLoop (s : RAS_EeveeEffectsManager F) (i : Int) :
    static (ssrDetachLoop s i) = static s := by
  induction s, i using ssrDetachLoop.induct with
  | case1 s i h ih => rw [ssrDetachLoop, if_pos h]; exact ih
  | case2 s i h => rw [ssrDetachLoop, if_neg h]

theorem static_bloomDownsampleLoop (s : RAS_EeveeEffectsManager F) (last : GPUTexture)
    (i : Int) : static (bloomDownsampleLoop s last i).1 = static s := by
  induction s, last, i using bloomDownsampleLoop.induct with
  | case1 s last i h s1 s2 s3 ih => rw [bloomDownsampleLoop, if_pos h]; exact ih
  | case2 s last i h => rw [bloomDownsampleLoop, if_neg h]

theorem static_bloomUpsampleLoop (s : RAS_EeveeEffectsManager F) (last : GPUTexture)
    (i : Int) : static (bloomUpsampleLoop s last i).1 = static s := by
  induction s, last, i using bloomUpsampleLoop.induct with
  | case1 s last i h s1 s2 s3 ih => rw [bloomUpsampleLoop, if_pos h]; exact ih
  | case2 s last i h => rw [bloomUpsampleLoop, if_neg h]

theorem static_taaSample (X : Extern F) (s : RAS_EeveeEffectsManager F) (v : Bool)
    (a b : Mat4 F) : static (taaSample X s v a b) = static s := by
  simp only [static, taaSample, emit, draw_pass]
  split <;> rfl

theorem static_taaResolve (s : RAS_EeveeEffectsManager F) (p : FrameBufferPtr) :
    static (taaResolve s p) = static s := by
  simp only [static, taaResolve, emit, draw_pass]
  split <;> rfl

theorem static_taaRedraw (host : Host F) (s : RAS_EeveeEffectsManager F)
    (p : FrameBufferPtr) : static (taaRedraw host s p) = static s := by
  unfold taaRedraw
  split <;> rfl

theorem static_DoTaa (X : Extern F) (host : Host F) (s : RAS_EeveeEffectsManager F)
    (p : FrameBufferPtr) : static (DoTaa X host s p) = static s := by
  unfold DoTaa
  split
  · simp only [static_taaRedraw, static_taaResolve, static_taaSample]
    rfl
  · rfl

theorem static_CreateMinMaxDepth (X : Extern F) (s : RAS_EeveeEffectsManager F)
    (p : FrameBufferPtr) : static (CreateMinMaxDepth X s p) = static s := by
  unfold CreateMinMaxDepth
  split <;> rfl

theorem static_ssrResolve (s : RAS_EeveeEffectsManager F) (p : FrameBufferPtr) :
    static (ssrResolve s p) = static s := by
  simp only [static, ssrResolve, emit, draw_pass]

theorem static_DoSSR (X : Extern F) (host : Host F) (s : RAS_EeveeEffectsManager F)
    (p : FrameBufferPtr) : static (DoSSR X host s p) = static s := by
  unfold DoSSR
  split
  · have h2 : ∀ t : RAS_EeveeEffectsManager F, static (ssrRaytrace t) = static t :=
      fun _ => rfl
    have h3 : static (ssrSetup X host s p) = static s := rfl
    simp only [static_ssrResolve, h2, static_ssrDetachLoop, static_ssrAttachLoop, h3]
  · rfl

theorem static_volumetricIntegrate (host : Host F) (s : RAS_EeveeEffectsManager F)
    (p : FrameBufferPtr) : static (volumetricIntegrate host s p) = static s := by
  simp only [static, volumetricIntegrate, emit, draw_pass]
  split <;> rfl

theorem static_volumetricResolve (host : Host F) (s : RAS_EeveeEffectsManager F)
    (p : FrameBufferPtr) : static (volumetricResolve host s p) = static s := by
  simp only [static, volumetricResolve, emit, draw_pass]
  split <;> rfl

theorem static_volumetricRestore (host : Host F) (s : RAS_EeveeEffectsManager F) :
    static (volumetricRestore host s) = static s := by
  simp only [static, volumetricRestore, emit, draw_pass]
  split <;> rfl

theorem static_RenderVolumetrics (X : Extern F) (host : Host F)
    (s : RAS_EeveeEffectsManager F) (p : FrameBufferPtr) :
    static (RenderVolumetrics X host s p).1 = static s := by
  unfold RenderVolumetrics
  split
  · simp only [static_volumetricRestore, static_volumetricResolve,
      static_volumetricIntegrate]
  · rfl

theorem RenderVolumetrics_snd (X : Extern F) (host : Host F)
    (s : RAS_EeveeEffectsManager F) (p : FrameBufferPtr) :
    (RenderVolumetrics X host s p).2 = p := by
  unfold RenderVolumetrics
  split <;> rfl

theorem static_RenderMotionBlur (X : Extern F) (host : Host F)
    (s : RAS_EeveeEffectsManager F) (p : FrameBufferPtr) :
    static (RenderMotionBlur X host s p).1 = static s := by
  simp only [static, RenderMotionBlur, emit, draw_pass]
  split <;> rfl

theorem RenderMotionBlur_snd (X : Extern F) (host : Host F)
    (s : RAS_EeveeEffectsManager F) (p : FrameBufferPtr) :
    (RenderMotionBlur X host s p).2 =
      if host.props.motion_blur_enable then s.m_blurTarget else p := by
  simp only [RenderMotionBlur, emit, draw_pass]
  split <;> rfl

theorem static_InitDof (X : Extern F) (host : Host F) (s : RAS_EeveeEffectsManager F) :
    static (InitDof X host s) = static s := by
  simp only [static, InitDof, emit]
  split <;> rfl

theorem static_dofLazyInit (X : Extern F) (host : Host F) (s : RAS_EeveeEffectsManager F) :
    static (dofLazyInit X host s) = static s := by
  unfold dofLazyInit
  split
  · exact static_InitDof X host s
  · rfl

theorem static_dofScatterNear (X : Extern F) (s : RAS_EeveeEffectsManager F) :
    static (dofScatterNear X s) = static s := by
  simp only [static, dofScatterNear, emit, draw_pass]
  split <;> rfl

theorem static_RenderDof (X : Extern F) (host : Host F)
    (s : RAS_EeveeEffectsManager F) (p : FrameBufferPtr) :
    static (RenderDof X host s p).1 = static s := by
  unfold RenderDof
  split
  · have h1 : ∀ t : RAS_EeveeEffectsManager F, static (dofResolve t).1 = static t :=
      fun _ => rfl
    have h2 : ∀ t : RAS_EeveeEffectsManager F, static (dofScatterFar X t) = static t :=
      fun _ => rfl
    have h3 : ∀ t : RAS_EeveeEffectsManager F, static (dofDownsample t p) = static t :=
      fun _ => rfl
    simp only [h1, h2, h3, static_dofScatterNear, static_dofLazyInit]
  · rfl

theorem RenderDof_snd (X : Extern F) (host : Host F)
    (s : RAS_EeveeEffectsManager F) (p : FrameBufferPtr) :
    (RenderDof X host s p).2 = if s.enabled X.EFFECT_DOF then s.m_dofTarget else p := by
  have h := static_RenderDof X host s p
  unfold RenderDof at h ⊢
  split
  · rename_i hd
    rw [if_pos hd] at h
    simp only [static, Prod.mk.injEq] at h
    exact h.2.2.2.1
  · rfl

theorem static_RenderBloom (X : Extern F) (s : RAS_EeveeEffectsManager F)
    (p : FrameBufferPtr) : static (RenderBloom X s p).1 = static s := by
  unfold RenderBloom
  split
  · have h1 : ∀ (t : RAS_EeveeEffectsManager F) (l : GPUTexture),
        static (bloomResolve t l).1 = static t := fun _ _ => rfl
    have h2 : ∀ t : RAS_EeveeEffectsManager F, static (bloomDownsampleFirst t) = static t :=
      fun _ => rfl
    have h3 : ∀ t : RAS_EeveeEffectsManager F, static (bloomBlit t p) = static t :=
      fun _ => rfl
    simp only [h1, h2, h3, static_bloomUpsampleLoop, static_bloomDownsampleLoop]
  · rfl

theorem RenderBloom_snd (X : Extern F) (s : RAS_EeveeEffectsManager F)
    (p : FrameBufferPtr) :
    (RenderBloom X s p).2 = if s.enabled X.EFFECT_BLOOM then s.m_bloomTarget else p := by
  have h := static_RenderBloom X s p
  unfold RenderBloom at h ⊢
  split
  · rename_i hd
    rw [if_pos hd] at h
    simp only [static, Prod.mk.injEq] at h
    exact h.2.1
  · rfl

/-- The target `RenderEeveeEffects` returns: the output of the last enabled stage among
motion blur, depth of field and bloom, or the input. -/
theorem RenderEeveeEffects_snd (X : Extern F) (host : Host F)
    (s : RAS_EeveeEffectsManager F) (p : FrameBufferPtr) :
    (RenderEeveeEffects X host s p).2 =
      if s.enabled X.EFFECT_BLOOM then s.m_bloomTarget
      else if s.enabled X.EFFECT_DOF then s.m_dofTarget
      else if host.props.motion_blur_enable then s.m_blurTarget
      else p := by
  unfold RenderEeveeEffects
  dsimp only
  generalize hs0 : (CreateMinMaxDepth X ((DoTaa X host s p).emit Event.Disable_RAS_DEPTH_TEST) p)
    = s0
  have e0 : static s0 = static s := by
    rw [← hs0, static_CreateMinMaxDepth]
    exact static_DoTaa X host s p
  generalize hs1 : DoSSR X host s0 p = s1
  have e1 : static s1 = static s := by rw [← hs1, static_DoSSR, e0]
  generalize hr2 : RenderVolumetrics X host s1 p = r2
  have e2 : static r2.1 = static s := by rw [← hr2, static_RenderVolumetrics, e1]
  have p2 : r2.2 = p := by rw [← hr2, RenderVolumetrics_snd]
  generalize hr3 : RenderMotionBlur X host r2.1 r2.2 = r3
  have e3 : static r3.1 = static s := by rw [← hr3, static_RenderMotionBlur, e2]
  have p3 : r3.2 = if host.props.motion_blur_enable then s.m_blurTarget else p := by
    rw [← hr3, RenderMotionBlur_snd, p2]
    simp only [static, Prod.mk.injEq] at e2
    rw [e2.2.2.1]
  generalize hr4 : RenderDof X host r3.1 r3.2 = r4
  have e4 : static r4.1 = static s := by rw [← hr4, static_RenderDof, e3]
  have p4 : r4.2 = if s.enabled X.EFFECT_DOF then s.m_dofTarget
      else if host.props.motion_blur_enable then s.m_blurTarget else p := by
    rw [← hr4, RenderDof_snd, p3, enabled_of_static e3]
    simp only [static, Prod.mk.injEq] at e3
    rw [e3.2.2.2.1]
  rw [RenderBloom_snd, p4, enabled_of_static e4]
  simp only [static, Prod.mk.injEq] at e4
  rw [e4.2.1]

end RAS_EeveeEffectsManager

/-! ## The chain as a whole -/

namespace RAS_EeveeEffectsManager

variable {F : Type}

theorem static_construct (heap : Heap) (vedata : EEVEE_Data F) (d : GPUTexture)
    (canvas : RAS_ICanvas) (props : IDProperty F) (world : Option World) :
    static (construct heap vedata d canvas props world).2 =
      (vedata.effects.enabled_effects, heap.length + 1, heap.length + 2, heap.length,
        canvas.width + 1, canvas.height + 1) := by
  simp [static, construct, newFrameBuffer]

theorem get?_append_length_add {α : Type} (h l : List α) (k : Nat) :
    (h ++ l).get? (h.length + k) = l.get? k := by
  rw [List.get?_eq_getElem?, List.get?_eq_getElem?,
    List.getElem?_append_right (Nat.le_add_right _ _), Nat.add_sub_cancel_left]

theorem construct_heap (heap : Heap) (vedata : EEVEE_Data F) (d : GPUTexture)
    (canvas : RAS_ICanvas) (props : IDProperty F) (world : Option World) :
    (construct heap vedata d canvas props world).1 = heap ++
      [⟨(canvas.width + 1) / 2, (canvas.height + 1) / 2, canvas.hdrType,
          FrameBufferType.RAS_FRAMEBUFFER_EYE_LEFT0⟩,
        ⟨canvas.width + 1, canvas.height + 1, canvas.hdrType,
          FrameBufferType.RAS_FRAMEBUFFER_EYE_LEFT0⟩,
        ⟨canvas.width + 1, canvas.height + 1, canvas.hdrType,
          FrameBufferType.RAS_FRAMEBUFFER_EYE_LEFT0⟩] := by
  simp [construct, newFrameBuffer]

theorem dimensions_construct_old (heap : Heap) (vedata : EEVEE_Data F) (d : GPUTexture)
    (canvas : RAS_ICanvas) (props : IDProperty F) (world : Option World)
    (p : FrameBufferPtr) (hp : p < heap.length) :
    dimensions (construct heap vedata d canvas props world).1 p = dimensions heap p := by
  rw [construct_heap, dimensions, dimensions, List.get?_eq_getElem?, List.get?_eq_getElem?,
    List.getElem?_append_left hp]

theorem dimensions_construct_dof (heap : Heap) (vedata : EEVEE_Data F) (d : GPUTexture)
    (canvas : RAS_ICanvas) (props : IDProperty F) (world : Option World) :
    dimensions (construct heap vedata d canvas props world).1 heap.length =
      some ((canvas.width + 1) / 2, (canvas.height + 1) / 2) := by
  rw [construct_heap, dimensions]
  exact congrArg _ (get?_append_length_add heap _ 0)

theorem dimensions_construct_bloom (heap : Heap) (vedata : EEVEE_Data F) (d : GPUTexture)
    (canvas : RAS_ICanvas) (props : IDProperty F) (world : Option World) :
    dimensions (construct heap vedata d canvas props world).1 (heap.length + 1) =
      some (canvas.width + 1, canvas.height + 1) := by
  rw [construct_heap, dimensions, get?_append_length_add]
  rfl

theorem dimensions_construct_blur (heap : Heap) (vedata : EEVEE_Data F) (d : GPUTexture)
    (canvas : RAS_ICanvas) (props : IDProperty F) (world : Option World) :
    dimensions (construct heap vedata d canvas props world).1 (heap.length + 2) =
      some (canvas.width + 1, canvas.height + 1) := by
  rw [construct_heap, dimensions, get?_append_length_add]
  rfl

/-- The target returned by a manager straight from the constructor. -/
theorem RenderEeveeEffects_construct_snd (X : Extern F) (host : Host F) (heap : Heap)
    (vedata : EEVEE_Data F) (d : GPUTexture) (canvas : RAS_ICanvas) (props : IDProperty F)
    (world : Option World) (p : FrameBufferPtr) :
    (RenderEeveeEffects X host (construct heap vedata d canvas props world).2 p).2 =
      if (vedata.effects.enabled_effects &&& X.EFFECT_BLOOM) != 0 then heap.length + 1
      else if (vedata.effects.enabled_effects &&& X.EFFECT_DOF) != 0 then heap.length
      else if host.props.motion_blur_enable then heap.length + 2
      else p := by
  have h := static_construct heap vedata d canvas props world
  simp only [static, Prod.mk.injEq] at h
  rw [RenderEeveeEffects_snd]
  simp only [enabled, h.1, h.2.1, h.2.2.1, h.2.2.2.1]

/-- C1. When no effect is on (the TAA, SSR, volumetric, depth-of-field and bloom bits are all
clear in `enabled_effects` and `motion_blur_enable` is false), `RenderEeveeEffects` returns
the very target it was given, whatever the state and the input. -/
theorem C1_all_disabled_returns_input (X : Extern F) (host : Host F)
    (s : RAS_EeveeEffectsManager F) (inputfb : FrameBufferPtr)
    (_hTaa : s.effects.enabled_effects &&& X.EFFECT_TAA = 0)
    (_hSsr : s.effects.enabled_effects &&& X.EFFECT_SSR = 0)
    (_hVol : s.effects.enabled_effects &&& X.EFFECT_VOLUMETRIC = 0)
    (hDof : s.effects.enabled_effects &&& X.EFFECT_DOF = 0)
    (hBloom : s.effects.enabled_effects &&& X.EFFECT_BLOOM = 0)
    (hBlur : host.props.motion_blur_enable = false) :
    (RenderEeveeEffects X host s inputfb).2 = inputfb := by
  rw [RenderEeveeEffects_snd]
  simp [enabled, hDof, hBloom, hBlur]

/-- C1, evaluated: a manager built on the 1920 by 1080 canvas with an empty effect mask and
motion blur off hands back input address 0. -/
theorem C1_all_disabled_returns_input_witness :
    (RenderEeveeEffects exampleExtern (exampleHost false) (exampleManager 0 1 8 0).2 0).2 = 0 :=
  C1_all_disabled_returns_input exampleExtern (exampleHost false) (exampleManager 0 1 8 0).2 0
    (by decide) (by decide) (by decide) (by decide) (by decide) rfl

/-- C2, refuted as stated: on the 1920 by 1080 canvas with depth of field as the only effect,
the input and the bloom target are 1921 by 1081 while the returned target is 960 by 540. -/
theorem C2_counterexample :
    dimensions (exampleManager 4 1 8 0).1 0 = some (1921, 1081) ∧
    dimensions (exampleManager 4 1 8 0).1 (exampleManager 4 1 8 0).2.m_bloomTarget =
      some (1921, 1081) ∧
    dimensions (exampleManager 4 1 8 0).1
      (RenderEeveeEffects exampleExtern (exampleHost false) (exampleManager 4 1 8 0).2 0).2 =
      some (960, 540) := by
  refine ⟨by decide, by decide, ?_⟩
  rw [exampleManager, RenderEeveeEffects_construct_snd]
  decide

/-- C2, amended. For every effect mask, every motion-blur flag and every input target of the
full resolution `(GetWidth() + 1) x (GetHeight() + 1)`, the target returned by
`RenderEeveeEffects` on the constructed manager has that full resolution, except when depth of
field is on and bloom is off: then it is the depth-of-field target, of half that width and
half that height (integer division). -/
theorem C2_returned_dimensions (X : Extern F) (host : Host F) (heap : Heap)
    (vedata : EEVEE_Data F) (d : GPUTexture) (canvas : RAS_ICanvas) (props : IDProperty F)
    (world : Option World) (inputfb : FrameBufferPtr)
    (hin : dimensions (construct heap vedata d canvas props world).1 inputfb =
      some (canvas.width + 1, canvas.height + 1)) :
    dimensions (construct heap vedata d canvas props world).1
      (RenderEeveeEffects X host (construct heap vedata d canvas props world).2 inputfb).2 =
      if (vedata.effects.enabled_effects &&& X.EFFECT_DOF) != 0 ∧
          ¬ (vedata.effects.enabled_effects &&& X.EFFECT_BLOOM) != 0 then
        some ((canvas.width + 1) / 2, (canvas.height + 1) / 2)
      else some (canvas.width + 1, canvas.height + 1) := by
  rw [RenderEeveeEffects_construct_snd]
  by_cases hb : ((vedata.effects.enabled_effects &&& X.EFFECT_BLOOM) != 0) = true
  · simp only [hb, if_true, not_true_eq_false, and_false, if_false]
    exact dimensions_construct_bloom heap vedata d canvas props world
  · by_cases hd : ((vedata.effects.enabled_effects &&& X.EFFECT_DOF) != 0) = true
    · simp only [hb, hd, if_true, not_false_eq_true, and_self, if_false]
      exact dimensions_construct_dof heap vedata d canvas props world
    · by_cases hm : host.props.motion_blur_enable = true
      · simp only [hb, hd, hm, if_true, false_and, if_false]
        exact dimensions_construct_blur heap vedata d canvas props world
      · simp only [hb, hd, hm, false_and, if_false]
        exact hin

/-- C2 amended, evaluated with bloom and depth of field both on (mask 6): the result is full
resolution. -/
theorem C2_returned_dimensions_witness :
    dimensions (exampleManager 6 1 8 0).1 0 = some (1921, 1081) ∧
    dimensions (exampleManager 6 1 8 0).1
      (RenderEeveeEffects exampleExtern (exampleHost false) (exampleManager 6 1 8 0).2 0).2 =
      some (1921, 1081) :=
  ⟨by decide,
   C2_returned_dimensions exampleExtern (exampleHost false) exampleHeap (exampleData 6 1 8 0)
    (GPUTexture.obj 10) exampleCanvas (exampleHost false).props none 0 (by decide)⟩

/-- C9, refuted as stated: on the canvas reporting 1920 by 1080 with bloom as the only
effect, the returned target is 1921 by 1081, not 1920 by 1080. -/
theorem C9_counterexample :
    dimensions (exampleManager 2 1 8 0).1
      (RenderEeveeEffects exampleExtern (exampleHost false) (exampleManager 2 1 8 0).2 0).2 =
      some (1921, 1081) ∧
    dimensions (exampleManager 2 1 8 0).1
      (RenderEeveeEffects exampleExtern (exampleHost false) (exampleManager 2 1 8 0).2 0).2 ≠
      some (1920, 1080) := by
  rw [exampleManager, RenderEeveeEffects_construct_snd]
  decide

/-- C9, amended. On a canvas reporting 1920 by 1080, with bloom the only effect enabled,
`RenderEeveeEffects` returns the bloom target allocated by the constructor; it differs from
every input target that was live when the manager was constructed, and it is 1921 by 1081
(the constructor adds one to the width and to the height the canvas reports). -/
theorem C9_only_bloom (X : Extern F) (host : Host F) (heap : Heap)
    (vedata : EEVEE_Data F) (d : GPUTexture) (hdr : Nat) (props : IDProperty F)
    (world : Option World) (inputfb : FrameBufferPtr)
    (hBloom : vedata.effects.enabled_effects &&& X.EFFECT_BLOOM ≠ 0)
    (_hTaa : vedata.effects.enabled_effects &&& X.EFFECT_TAA = 0)
    (_hSsr : vedata.effects.enabled_effects &&& X.EFFECT_SSR = 0)
    (_hVol : vedata.effects.enabled_effects &&& X.EFFECT_VOLUMETRIC = 0)
    (_hDof : vedata.effects.enabled_effects &&& X.EFFECT_DOF = 0)
    (_hBlur : host.props.motion_blur_enable = false)
    (hin : inputfb < heap.length) :
    (RenderEeveeEffects X host
        (construct heap vedata d ⟨1920, 1080, hdr⟩ props world).2 inputfb).2 =
      (construct heap vedata d ⟨1920, 1080, hdr⟩ props world).2.m_bloomTarget ∧
    (RenderEeveeEffects X host
        (construct heap vedata d ⟨1920, 1080, hdr⟩ props world).2 inputfb).2 ≠ inputfb ∧
    dimensions (construct heap vedata d ⟨1920, 1080, hdr⟩ props world).1
      (RenderEeveeEffects X host
        (construct heap vedata d ⟨1920, 1080, hdr⟩ props world).2 inputfb).2 =
      some (1921, 1081) := by
  have hb : ((vedata.effects.enabled_effects &&& X.EFFECT_BLOOM) != 0) = true := by
    simpa using hBloom
  have h := static_construct heap vedata d ⟨1920, 1080, hdr⟩ props world
  simp only [static, Prod.mk.injEq] at h
  rw [RenderEeveeEffects_construct_snd, if_pos hb, h.2.1]
  refine ⟨rfl, Nat.ne_of_gt (Nat.lt_succ_of_lt hin), ?_⟩
  exact dimensions_construct_bloom heap vedata d ⟨1920, 1080, hdr⟩ props world

/-- C9 amended, evaluated on the example heap with input address 0. -/
theorem C9_only_bloom_witness :
    (0 : Nat) < exampleHeap.length ∧
    (RenderEeveeEffects exampleExtern (exampleHost false) (exampleManager 2 1 8 0).2 0).2 ≠ 0 ∧
    dimensions (exampleManager 2 1 8 0).1
      (RenderEeveeEffects exampleExtern (exampleHost false) (exampleManager 2 1 8 0).2 0).2 =
      some (1921, 1081) :=
  ⟨by decide,
   (C9_only_bloom exampleExtern (exampleHost false) exampleHeap (exampleData 2 1 8 0)
    (GPUTexture.obj 10) 0 (exampleHost false).props none 0
    (by decide) (by decide) (by decide) (by decide) (by decide) rfl (by decide)).2⟩

end RAS_EeveeEffectsManager

/-! ## Temporal anti-aliasing -/

namespace RAS_EeveeEffectsManager

variable {F : Type}

theorem taaResolve_samples (s : RAS_EeveeEffectsManager F) (p : FrameBufferPtr) :
    (taaResolve s p).effects.taa_current_sample = s.effects.taa_current_sample ∧
    (taaResolve s p).effects.taa_total_sample = s.effects.taa_total_sample := by
  simp only [taaResolve, emit, draw_pass]
  split <;> exact ⟨rfl, rfl⟩

theorem taaRedraw_samples (host : Host F) (s : RAS_EeveeEffectsManager F)
    (p : FrameBufferPtr) :
    (taaRedraw host s p).effects.taa_current_sample = s.effects.taa_current_sample ∧
    (taaRedraw host s p).effects.taa_total_sample = s.effects.taa_total_sample := by
  simp only [taaRedraw, emit]
  split <;> exact ⟨rfl, rfl⟩

theorem taaSample_samples (X : Extern F) (s : RAS_EeveeEffectsManager F) (v : Bool)
    (a b : Mat4 F) :
    (taaSample X s v a b).effects.taa_current_sample =
      (if v && (s.effects.taa_total_sample == 0 ||
          decide (s.effects.taa_current_sample < s.effects.taa_total_sample))
        then s.effects.taa_current_sample + 1 else 1) ∧
    (taaSample X s v a b).effects.taa_total_sample = s.effects.taa_total_sample := by
  simp only [taaSample, emit]
  split <;> exact ⟨rfl, rfl⟩

/-- The sample counter after one call of `DoTaa`: untouched when TAA is off; one more
when the view is valid and the budget is zero or not yet reached; 1 otherwise. -/
theorem DoTaa_current_sample (X : Extern F) (host : Host F) (s : RAS_EeveeEffectsManager F)
    (p : FrameBufferPtr) :
    (DoTaa X host s p).effects.taa_current_sample =
      if s.enabled X.EFFECT_TAA then
        (if taaViewIsValid X host s && (s.effects.taa_total_sample == 0 ||
            decide (s.effects.taa_current_sample < s.effects.taa_total_sample))
          then s.effects.taa_current_sample + 1 else 1)
      else s.effects.taa_current_sample := by
  unfold DoTaa
  split
  · rw [(taaRedraw_samples _ _ _).1, (taaResolve_samples _ _).1, (taaSample_samples _ _ _ _ _).1]
    rfl
  · rfl

theorem DoTaa_total_sample (X : Extern F) (host : Host F) (s : RAS_EeveeEffectsManager F)
    (p : FrameBufferPtr) :
    (DoTaa X host s p).effects.taa_total_sample = s.effects.taa_total_sample := by
  unfold DoTaa
  split
  · rw [(taaRedraw_samples _ _ _).2, (taaResolve_samples _ _).2, (taaSample_samples _ _ _ _ _).2]
    rfl
  · rfl

theorem DoTaa_enabled (X : Extern F) (host : Host F) (s : RAS_EeveeEffectsManager F)
    (p : FrameBufferPtr) (bit : Nat) : (DoTaa X host s p).enabled bit = s.enabled bit :=
  enabled_of_static (static_DoTaa X host s p) bit

theorem DoTaaFrames_total_sample (X : Extern F) (frames : List (Host F × FrameBufferPtr))
    (s : RAS_EeveeEffectsManager F) :
    (DoTaaFrames X frames s).effects.taa_total_sample = s.effects.taa_total_sample := by
  induction frames generalizing s with
  | nil => rfl
  | cons f fs ih => rw [DoTaaFrames, ih, DoTaa_total_sample]

/-- C3, refuted as stated: with a total sample budget of 0 and the counter at 0, one frame
of `DoTaa` with TAA enabled leaves the counter at 1, above the budget. -/
theorem C3_counterexample :
    (exampleManager 256 1 0 0).2.effects.taa_total_sample = 0 ∧
    (exampleManager 256 1 0 0).2.effects.taa_current_sample ≤
      (exampleManager 256 1 0 0).2.effects.taa_total_sample ∧
    (DoTaaFrames exampleExtern [(exampleHost false, 0)]
      (exampleManager 256 1 0 0).2).effects.taa_current_sample = 1 ∧
    ¬ (DoTaaFrames exampleExtern [(exampleHost false, 0)]
      (exampleManager 256 1 0 0).2).effects.taa_current_sample ≤
      (exampleManager 256 1 0 0).2.effects.taa_total_sample := by
  have h : (DoTaaFrames exampleExtern [(exampleHost false, 0)]
      (exampleManager 256 1 0 0).2).effects.taa_current_sample = 1 := by
    rw [DoTaaFrames, DoTaaFrames, DoTaa_current_sample]
    decide
  rw [h]
  decide

/-- C3, amended. For every total sample budget of at least 1 and every run of frames of
`DoTaa` (whatever the host holds at each frame, hence whatever view-valid or view-invalid
outcome), starting from a counter that does not exceed the budget, the counter does not
exceed the budget after the run. A budget of 0 stands for no limit and is left out. -/
theorem C3_sample_within_budget (X : Extern F) (frames : List (Host F × FrameBufferPtr))
    (s : RAS_EeveeEffectsManager F)
    (hpos : 1 ≤ s.effects.taa_total_sample)
    (hle : s.effects.taa_current_sample ≤ s.effects.taa_total_sample) :
    (DoTaaFrames X frames s).effects.taa_current_sample ≤ s.effects.taa_total_sample := by
  induction frames generalizing s with
  | nil => exact hle
  | cons f fs ih =>
    rw [DoTaaFrames]
    have ht := DoTaa_total_sample X f.1 s f.2
    have hc := DoTaa_current_sample X f.1 s f.2
    have step : (DoTaa X f.1 s f.2).effects.taa_current_sample ≤
        (DoTaa X f.1 s f.2).effects.taa_total_sample := by
      rw [ht, hc]
      split
      · split
        · rename_i hv
          simp only [Bool.and_eq_true, Bool.or_eq_true, beq_iff_eq, decide_eq_true_eq] at hv
          omega
        · exact hpos
      · exact hle
    have := ih (DoTaa X f.1 s f.2) (by rw [ht]; exact hpos) step
    rw [ht] at this
    exact this

/-- C3 amended, evaluated: budget 8, counter 0, twelve frames with TAA enabled. -/
theorem C3_sample_within_budget_witness :
    (DoTaaFrames exampleExtern (List.replicate 12 (exampleHost false, 0))
      (exampleManager 256 1 8 0).2).effects.taa_current_sample ≤ 8 :=
  C3_sample_within_budget exampleExtern (List.replicate 12 (exampleHost false, 0))
    (exampleManager 256 1 8 0).2 (by decide) (by decide)

/-- C4. With TAA enabled, when `DoTaa` detects a view discontinuity (the projection times
view matrix does not compare equal to `prev_drw_persmat`, or the draw-support flag differs
from `prev_drw_support`; either alone suffices), the sample counter is exactly 1 when `DoTaa`
returns, whatever it was before. -/
theorem C4_discontinuity_resets_sample (X : Extern F) (host : Host F)
    (s : RAS_EeveeEffectsManager F) (inputfb : FrameBufferPtr)
    (hTaa : s.effects.enabled_effects &&& X.EFFECT_TAA ≠ 0)
    (hjump : X.compare_m4m4_FLT_MIN
        (X.MT_Matrix4x4_getValue (X.MT_mul host.cam.projection host.cam.modelview))
        s.effects.prev_drw_persmat = false ∨
      s.effects.prev_drw_support ≠ host.draw_support) :
    (DoTaa X host s inputfb).effects.taa_current_sample = 1 := by
  have he : s.enabled X.EFFECT_TAA = true := by simpa [enabled] using hTaa
  have hv : taaViewIsValid X host s = false := by
    unfold taaViewIsValid taaPersmat
    rcases hjump with h | h
    · rw [h]; rfl
    · have : (s.effects.prev_drw_support == host.draw_support) = false := by
        simpa using h
      rw [this, Bool.and_false]
  rw [DoTaa_current_sample, if_pos he, hv]
  rfl

/-- C4, evaluated: the counter stands at 5 of 8, the camera is unchanged and the draw-support
flag flips; the counter is back at 1. -/
theorem C4_discontinuity_resets_sample_witness :
    (exampleManager 256 1 8 5).2.effects.taa_current_sample = 5 ∧
    (DoTaa exampleExtern { exampleHost false with draw_support := false }
      (exampleManager 256 1 8 5).2 0).effects.taa_current_sample = 1 :=
  ⟨by decide,
   C4_discontinuity_resets_sample exampleExtern { exampleHost false with draw_support := false }
    (exampleManager 256 1 8 5).2 0 (by decide) (Or.inr (by decide))⟩

/-- One view-valid frame with TAA enabled and a budget of 8: the counter goes up by one
below 8 and goes back to 1 from 8. -/
theorem DoTaa_valid_budget8 (X : Extern F) (host : Host F) (s : RAS_EeveeEffectsManager F)
    (p : FrameBufferPtr) (hTaa : s.enabled X.EFFECT_TAA = true)
    (htotal : s.effects.taa_total_sample = 8) (hv : taaViewIsValid X host s = true) :
    (DoTaa X host s p).effects.taa_current_sample =
      if s.effects.taa_current_sample < 8 then s.effects.taa_current_sample + 1 else 1 := by
  rw [DoTaa_current_sample, if_pos hTaa, hv, htotal]
  by_cases h : s.effects.taa_current_sample < 8
  · simp [h]
  · simp [h]

theorem DoTaaFrames_valid_budget8 (X : Extern F) (frames : List (Host F × FrameBufferPtr))
    (s : RAS_EeveeEffectsManager F) (hTaa : s.enabled X.EFFECT_TAA = true)
    (htotal : s.effects.taa_total_sample = 8)
    (h0 : 0 ≤ s.effects.taa_current_sample) (h8 : s.effects.taa_current_sample ≤ 8)
    (hvalid : allViewsValid X frames s = true) :
    (DoTaaFrames X frames s).effects.taa_current_sample =
      if frames.length = 0 then s.effects.taa_current_sample
      else (s.effects.taa_current_sample + frames.length - 1) % 8 + 1 := by
  induction frames generalizing s with
  | nil => rfl
  | cons f fs ih =>
    rw [allViewsValid, Bool.and_eq_true] at hvalid
    have hc := DoTaa_valid_budget8 X f.1 s f.2 hTaa htotal hvalid.1
    have ht := DoTaa_total_sample X f.1 s f.2
    have he := DoTaa_enabled X f.1 s f.2 X.EFFECT_TAA
    have := ih (DoTaa X f.1 s f.2) (by rw [he]; exact hTaa) (by rw [ht]; exact htotal)
      (by rw [hc]; split <;> omega) (by rw [hc]; split <;> omega) hvalid.2
    rw [DoTaaFrames, this, hc]
    simp only [List.length_cons, Nat.add_one_ne_zero, if_false, Nat.cast_add, Nat.cast_one]
    split <;> split <;> rename_i hl hlt
    · simp only [hl, Nat.cast_zero]
      omega
    · simp only [hl, Nat.cast_zero]
      omega
    · omega
    · omega

/-- C5, refuted as stated: TAA enabled, budget 8, counter 0, nine frames with the same
camera and render state, each judged view-valid. The counter reads 8 after the eighth frame
and 1, not 8, after the ninth. -/
theorem C5_counterexample :
    allViewsValid exampleExtern (List.replicate 9 (exampleHost false, 0))
      (exampleManager 256 1 8 0).2 = true ∧
    (DoTaaFrames exampleExtern (List.replicate 8 (exampleHost false, 0))
      (exampleManager 256 1 8 0).2).effects.taa_current_sample = 8 ∧
    (DoTaaFrames exampleExtern (List.replicate 9 (exampleHost false, 0))
      (exampleManager 256 1 8 0).2).effects.taa_current_sample = 1 := by
  have hv : allViewsValid exampleExtern (List.replicate 9 (exampleHost false, 0))
      (exampleManager 256 1 8 0).2 = true := by decide
  have hv8 : allViewsValid exampleExtern (List.replicate 8 (exampleHost false, 0))
      (exampleManager 256 1 8 0).2 = true := by decide
  refine ⟨hv, ?_, ?_⟩
  · rw [DoTaaFrames_valid_budget8 exampleExtern _ _ (by decide) (by decide) (by decide)
      (by decide) hv8]
    decide
  · rw [DoTaaFrames_valid_budget8 exampleExtern _ _ (by decide) (by decide) (by decide)
      (by decide) hv]
    decide

/-- C5, amended. With TAA enabled, a budget of 8, a counter starting at 0 and every frame
judged view-valid, the counter after frame `k + 1` is `k mod 8 + 1`: it reads 1, 2, ..., 8
over the first eight frames, is back at 1 after the ninth frame although the view is
unperturbed, and goes on cycling through 1, ..., 8. -/
theorem C5_static_camera_cycle (X : Extern F) (f : Host F × FrameBufferPtr)
    (fs : List (Host F × FrameBufferPtr)) (s : RAS_EeveeEffectsManager F)
    (hTaa : s.effects.enabled_effects &&& X.EFFECT_TAA ≠ 0)
    (htotal : s.effects.taa_total_sample = 8)
    (hcur : s.effects.taa_current_sample = 0)
    (hvalid : allViewsValid X (f :: fs) s = true) :
    (DoTaaFrames X (f :: fs) s).effects.taa_current_sample = (fs.length % 8 : Nat) + 1 := by
  have he : s.enabled X.EFFECT_TAA = true := by simpa [enabled] using hTaa
  rw [DoTaaFrames_valid_budget8 X (f :: fs) s he htotal (by omega) (by omega) hvalid, hcur]
  simp only [List.length_cons, Nat.add_one_ne_zero, if_false, Nat.cast_add, Nat.cast_one]
  omega

/-- C5 amended, evaluated: after ten static frames the counter reads 2. -/
theorem C5_static_camera_cycle_witness :
    allViewsValid exampleExtern (List.replicate 10 (exampleHost false, 0))
      (exampleManager 256 1 8 0).2 = true ∧
    (DoTaaFrames exampleExtern (List.replicate 10 (exampleHost false, 0))
      (exampleManager 256 1 8 0).2).effects.taa_current_sample = 2 :=
  ⟨by decide,
   C5_static_camera_cycle exampleExtern (exampleHost false, 0)
    (List.replicate 9 (exampleHost false, 0)) (exampleManager 256 1 8 0).2
    (by decide) (by decide) (by decide) (by decide)⟩

end RAS_EeveeEffectsManager

/-! ## Depth of field -/

theorem initDofCount_append {F : Type} (a b : List (Event F)) :
    initDofCount (a ++ b) = initDofCount a + initDofCount b := by
  simp [initDofCount, List.countP_append]

namespace RAS_EeveeEffectsManager

variable {F : Type}

theorem InitDof_count (X : Extern F) (host : Host F) (s : RAS_EeveeEffectsManager F) :
    initDofCount (InitDof X host s).trace = initDofCount s.trace + 1 := by
  have h : (InitDof X host s).trace = s.trace ++ [Event.InitDof] := by
    simp only [InitDof, emit]
    split <;> rfl
  rw [h, initDofCount_append]
  rfl

theorem dofLazyInit_count (X : Extern F) (host : Host F) (s : RAS_EeveeEffectsManager F) :
    initDofCount (dofLazyInit X host s).trace =
      initDofCount s.trace + (if s.m_dofInitialized then 0 else 1) := by
  unfold dofLazyInit
  cases h : s.m_dofInitialized
  · simp only [Bool.not_false, if_true, Bool.false_eq_true, if_false]
    exact InitDof_count X host s
  · simp

theorem dofLazyInit_initialized (X : Extern F) (host : Host F)
    (s : RAS_EeveeEffectsManager F) : (dofLazyInit X host s).m_dofInitialized = true := by
  unfold dofLazyInit
  cases h : s.m_dofInitialized
  · rfl
  · simp [h]

theorem dofDownsample_trace (s : RAS_EeveeEffectsManager F) (p : FrameBufferPtr) :
    (dofDownsample s p).trace = s.trace ++
      [Event.DRW_framebuffer_bind s.fbl.dof_down_fb,
        Event.DRW_draw_pass DRWPass.dof_down (dofDownsample s p).effects] := by
  simp only [dofDownsample, emit, draw_pass, List.append_assoc, List.cons_append,
    List.nil_append]

theorem dofScatterFar_trace (X : Extern F) (s : RAS_EeveeEffectsManager F) :
    (dofScatterFar X s).trace = s.trace ++
      [Event.DRW_framebuffer_bind s.fbl.dof_scatter_far_fb,
        Event.DRW_framebuffer_clear true false false
          (X.lit 0, X.lit 0, X.lit 0, X.lit 0) (X.lit 0),
        Event.DRW_draw_pass DRWPass.dof_scatter (dofScatterFar X s).effects] := by
  simp only [dofScatterFar, emit, draw_pass, List.append_assoc, List.cons_append,
    List.nil_append]

theorem dofScatterNear_trace (X : Extern F) (s : RAS_EeveeEffectsManager F) :
    (dofScatterNear X s).trace = s.trace ++
      [Event.DRW_framebuffer_bind s.fbl.dof_scatter_near_fb,
        Event.DRW_framebuffer_clear true false false
          (X.lit 0, X.lit 0, X.lit 0, X.lit 0) (X.lit 0),
        Event.DRW_draw_pass DRWPass.dof_scatter (dofScatterNear X s).effects] := by
  simp only [dofScatterNear, emit, draw_pass, List.append_assoc, List.cons_append,
    List.nil_append]
  split <;> rfl

theorem dofResolve_trace (s : RAS_EeveeEffectsManager F) :
    (dofResolve s).1.trace = s.trace ++
      [Event.DRW_framebuffer_bind (GPUFrameBuffer.ofRAS s.m_dofTarget),
        Event.DRW_draw_pass DRWPass.dof_resolve s.effects] := by
  simp only [dofResolve, emit, draw_pass, List.append_assoc, List.cons_append,
    List.nil_append]

theorem dofScatterNear_initialized (X : Extern F) (s : RAS_EeveeEffectsManager F) :
    (dofScatterNear X s).m_dofInitialized = s.m_dofInitialized := by
  simp only [dofScatterNear, emit, draw_pass]
  split <;> rfl

theorem dofPasses_count (X : Extern F) (s : RAS_EeveeEffectsManager F) (p : FrameBufferPtr) :
    initDofCount (dofResolve (dofScatterNear X (dofScatterFar X (dofDownsample s p)))).1.trace =
      initDofCount s.trace ∧
    (dofResolve (dofScatterNear X (dofScatterFar X (dofDownsample s p)))).1.m_dofInitialized =
      s.m_dofInitialized := by
  constructor
  · rw [dofResolve_trace, dofScatterNear_trace, dofScatterFar_trace, dofDownsample_trace]
    simp only [initDofCount_append]
    rfl
  · have h1 : ∀ t : RAS_EeveeEffectsManager F,
        (dofResolve t).1.m_dofInitialized = t.m_dofInitialized := fun _ => rfl
    have h2 : ∀ t : RAS_EeveeEffectsManager F,
        (dofScatterFar X t).m_dofInitialized = t.m_dofInitialized := fun _ => rfl
    have h3 : ∀ t : RAS_EeveeEffectsManager F,
        (dofDownsample t p).m_dofInitialized = t.m_dofInitialized := fun _ => rfl
    rw [h1, dofScatterNear_initialized, h2, h3]

/-- One call of `RenderDof`: `InitDof` runs exactly when depth of field is on and the flag
`m_dofInitialized` is still clear, and the flag is set from then on. -/
theorem RenderDof_InitDof (X : Extern F) (host : Host F) (s : RAS_EeveeEffectsManager F)
    (p : FrameBufferPtr) :
    initDofCount (RenderDof X host s p).1.trace =
      initDofCount s.trace +
        (if s.enabled X.EFFECT_DOF && !s.m_dofInitialized then 1 else 0) ∧
    (RenderDof X host s p).1.m_dofInitialized =
      (s.m_dofInitialized || s.enabled X.EFFECT_DOF) := by
  unfold RenderDof
  cases he : s.enabled X.EFFECT_DOF
  · simp
  · simp only [if_true]
    have h := dofPasses_count X (dofLazyInit X host s) p
    rw [h.1, h.2, dofLazyInit_count, dofLazyInit_initialized]
    cases s.m_dofInitialized <;> simp

theorem RenderDofCalls_InitDof (X : Extern F) (calls : List (DofCall F))
    (s : RAS_EeveeEffectsManager F) :
    initDofCount (RenderDofCalls X calls s).trace =
      initDofCount s.trace +
        (if !s.m_dofInitialized && calls.any (DofCall.dofOn X) then 1 else 0) ∧
    (RenderDofCalls X calls s).m_dofInitialized =
      (s.m_dofInitialized || calls.any (DofCall.dofOn X)) := by
  induction calls generalizing s with
  | nil => simp [RenderDofCalls]
  | cons c cs ih =>
    have h := RenderDof_InitDof X c.host (s.withEnabledEffects c.enabled_effects) c.inputfb
    have he : (s.withEnabledEffects c.enabled_effects).enabled X.EFFECT_DOF = c.dofOn X := rfl
    have hi : (s.withEnabledEffects c.enabled_effects).m_dofInitialized =
      s.m_dofInitialized := rfl
    have ht : (s.withEnabledEffects c.enabled_effects).trace = s.trace := rfl
    rw [he, hi, ht] at h
    rw [RenderDofCalls, (ih _).1, (ih _).2, h.1, h.2, List.any_cons]
    cases s.m_dofInitialized <;> cases c.dofOn X <;> cases cs.any (DofCall.dofOn X) <;> simp

/-- C6. Over every run of `RenderDof` calls on a manager as the constructor leaves it, the
host switching the depth-of-field bit on or off at will between calls, `InitDof` is executed
once if some call of the run has depth of field on and not at all otherwise, and
`m_dofInitialized` is set exactly in the first case. Every prefix of a run being a run, the
one execution falls in the first call with depth of field on and no later call repeats it. -/
theorem C6_InitDof_at_most_once (X : Extern F) (heap : Heap) (vedata : EEVEE_Data F)
    (d : GPUTexture) (canvas : RAS_ICanvas) (props : IDProperty F) (world : Option World)
    (calls : List (DofCall F)) :
    initDofCount (RenderDofCalls X calls (construct heap vedata d canvas props world).2).trace =
      (if calls.any (DofCall.dofOn X) then 1 else 0) ∧
    initDofCount (RenderDofCalls X calls (construct heap vedata d canvas props world).2).trace
      ≤ 1 ∧
    (RenderDofCalls X calls (construct heap vedata d canvas props world).2).m_dofInitialized =
      calls.any (DofCall.dofOn X) := by
  have h := RenderDofCalls_InitDof X calls (construct heap vedata d canvas props world).2
  have h0 : (construct heap vedata d canvas props world).2.m_dofInitialized = false := rfl
  have ht : (construct heap vedata d canvas props world).2.trace = [] := rfl
  rw [h0, ht] at h
  have hc : initDofCount ([] : List (Event F)) = 0 := rfl
  rw [hc] at h
  simp only [Bool.not_false, Bool.true_and, Nat.zero_add, Bool.false_or] at h
  refine ⟨h.1, ?_, h.2⟩
  rw [h.1]
  split <;> omega

theorem issued_of_trace {s t : RAS_EeveeEffectsManager F} {l : List (Event F)}
    (h : t.trace = s.trace ++ l) : issued s t = l := by
  rw [issued, h, List.drop_left]

theorem dofLazyInit_trace (X : Extern F) (host : Host F) (s : RAS_EeveeEffectsManager F) :
    (dofLazyInit X host s).trace =
      s.trace ++ (if s.m_dofInitialized then [] else [Event.InitDof]) := by
  unfold dofLazyInit
  cases h : s.m_dofInitialized
  · simp only [Bool.not_false, if_true, Bool.false_eq_true, if_false]
    simp only [InitDof, emit]
    split <;> rfl
  · simp

theorem dofLazyInit_txl (X : Extern F) (host : Host F) (s : RAS_EeveeEffectsManager F) :
    (dofLazyInit X host s).txl = s.txl := by
  unfold dofLazyInit
  split
  · simp only [InitDof, emit]
    split <;> rfl
  · rfl

theorem dofScatterNear_draw (X : Extern F) (s : RAS_EeveeEffectsManager F) :
    (dofScatterNear X s).effects.dof_layer_select = (X.lit 1, X.lit 0) ∧
    (dofScatterNear X s).effects.unf_source_buffer =
      if s.enabled X.EFFECT_BLOOM then s.txl.bloom_downsample 0 else s.txl.dof_down_near := by
  simp only [dofScatterNear, emit, draw_pass]
  split <;> simp

/-- The calls one `RenderDof` issues when depth of field is on. -/
theorem RenderDof_trace (X : Extern F) (host : Host F) (s : RAS_EeveeEffectsManager F)
    (p : FrameBufferPtr) (he : s.enabled X.EFFECT_DOF = true) :
    (RenderDof X host s p).1.trace = s.trace ++
      ((if s.m_dofInitialized then [] else [Event.InitDof]) ++
      [Event.DRW_framebuffer_bind (dofLazyInit X host s).fbl.dof_down_fb,
        Event.DRW_draw_pass DRWPass.dof_down (dofDownsample (dofLazyInit X host s) p).effects,
        Event.DRW_framebuffer_bind
          (dofDownsample (dofLazyInit X host s) p).fbl.dof_scatter_far_fb,
        Event.DRW_framebuffer_clear true false false
          (X.lit 0, X.lit 0, X.lit 0, X.lit 0) (X.lit 0),
        Event.DRW_draw_pass DRWPass.dof_scatter
          (dofScatterFar X (dofDownsample (dofLazyInit X host s) p)).effects,
        Event.DRW_framebuffer_bind
          (dofScatterFar X (dofDownsample (dofLazyInit X host s) p)).fbl.dof_scatter_near_fb,
        Event.DRW_framebuffer_clear true false false
          (X.lit 0, X.lit 0, X.lit 0, X.lit 0) (X.lit 0),
        Event.DRW_draw_pass DRWPass.dof_scatter
          (dofScatterNear X (dofScatterFar X (dofDownsample (dofLazyInit X host s) p))).effects,
        Event.DRW_framebuffer_bind (GPUFrameBuffer.ofRAS
          (dofScatterNear X (dofScatterFar X
            (dofDownsample (dofLazyInit X host s) p))).m_dofTarget),
        Event.DRW_draw_pass DRWPass.dof_resolve
          (dofScatterNear X (dofScatterFar X
            (dofDownsample (dofLazyInit X host s) p))).effects]) := by
  unfold RenderDof
  rw [if_pos he]
  simp only []
  rw [dofResolve_trace, dofScatterNear_trace, dofScatterFar_trace, dofDownsample_trace,
    dofLazyInit_trace]
  simp only [List.append_assoc, List.cons_append, List.nil_append]

/-- C8. With depth of field enabled, `RenderDof` draws the scatter pass twice: first the far
field (layer selection `(0, 1)`) from `dof_down_far`, then the near field (layer selection
`(1, 0)`) from `bloom_downsample[0]` if bloom is enabled and from `dof_down_near` otherwise.
When these two textures are different objects, the near source is `bloom_downsample[0]` if
and only if bloom is enabled. -/
theorem C8_near_scatter_source (X : Extern F) (host : Host F)
    (s : RAS_EeveeEffectsManager F) (inputfb : FrameBufferPtr)
    (hDof : s.effects.enabled_effects &&& X.EFFECT_DOF ≠ 0) :
    scatterDraws (issued s (RenderDof X host s inputfb).1) =
      [((X.lit 0, X.lit 1), s.txl.dof_down_far),
       ((X.lit 1, X.lit 0),
        if s.effects.enabled_effects &&& X.EFFECT_BLOOM ≠ 0 then s.txl.bloom_downsample 0
        else s.txl.dof_down_near)] ∧
    (s.txl.bloom_downsample 0 ≠ s.txl.dof_down_near →
      ((if s.effects.enabled_effects &&& X.EFFECT_BLOOM ≠ 0 then s.txl.bloom_downsample 0
        else s.txl.dof_down_near) = s.txl.bloom_downsample 0 ↔
        s.effects.enabled_effects &&& X.EFFECT_BLOOM ≠ 0)) := by
  have he : s.enabled X.EFFECT_DOF = true := by simpa [enabled] using hDof
  constructor
  · rw [issued_of_trace (RenderDof_trace X host s inputfb he)]
    have hfar : ∀ t : RAS_EeveeEffectsManager F,
        (dofScatterFar X t).effects.dof_layer_select = (X.lit 0, X.lit 1) ∧
        (dofScatterFar X t).effects.unf_source_buffer = t.txl.dof_down_far ∧
        (dofScatterFar X t).txl = t.txl ∧
        static (dofScatterFar X t) = static t := fun _ => ⟨rfl, rfl, rfl, rfl⟩
    have hdown : ∀ t : RAS_EeveeEffectsManager F,
        (dofDownsample t inputfb).txl = t.txl ∧
        static (dofDownsample t inputfb) = static t := fun _ => ⟨rfl, rfl⟩
    have hnear := dofScatterNear_draw X
      (dofScatterFar X (dofDownsample (dofLazyInit X host s) inputfb))
    have hen : (dofScatterFar X (dofDownsample (dofLazyInit X host s) inputfb)).enabled
        X.EFFECT_BLOOM = s.enabled X.EFFECT_BLOOM :=
      enabled_of_static (by rw [(hfar _).2.2.2, (hdown _).2, static_dofLazyInit]) _
    rw [hen, (hfar _).2.2.1, (hdown _).1, dofLazyInit_txl] at hnear
    have hlazy : scatterDraws
        (if s.m_dofInitialized then [] else [Event.InitDof] : List (Event F)) = [] := by
      split <;> rfl
    rw [scatterDraws, List.filterMap_append]
    rw [scatterDraws] at hlazy
    rw [hlazy]
    simp only [List.filterMap_cons, scatterDraw, List.filterMap_nil, List.nil_append]
    rw [hnear.1, hnear.2, (hfar _).1, (hfar _).2.1, (hdown _).1, dofLazyInit_txl]
    simp [enabled]
  · intro hne
    by_cases hb : s.effects.enabled_effects &&& X.EFFECT_BLOOM = 0
    · simp [hb, hne.symm]
    · simp [hb]

/-- C8, evaluated: depth of field and bloom both on (mask 6); the far scatter reads texture
2 (`dof_down_far`) and the near scatter reads texture 100 (`bloom_downsample[0]`), which is
not texture 3 (`dof_down_near`). -/
theorem C8_near_scatter_source_witness :
    scatterDraws (issued (exampleManager 6 1 8 0).2
      (RenderDof exampleExtern (exampleHost false) (exampleManager 6 1 8 0).2 0).1) =
      [((0, 1), GPUTexture.obj 2), ((1, 0), GPUTexture.obj 100)] ∧
    GPUTexture.obj 100 ≠ GPUTexture.obj 3 ∧
    ((if (6 : Nat) &&& 2 ≠ 0 then GPUTexture.obj 100 else GPUTexture.obj 3) =
      GPUTexture.obj 100 ↔ (6 : Nat) &&& 2 ≠ 0) :=
  ⟨(C8_near_scatter_source exampleExtern (exampleHost false) (exampleManager 6 1 8 0).2 0
    (by decide)).1,
   by decide,
   (C8_near_scatter_source exampleExtern (exampleHost false) (exampleManager 6 1 8 0).2 0
    (by decide)).2 (by decide)⟩

end RAS_EeveeEffectsManager

/-! ## Bloom -/

theorem drawCount_append {F : Type} (pass : DRWPass) (a b : List (Event F)) :
    drawCount pass (a ++ b) = drawCount pass a + drawCount pass b := by
  simp [drawCount, List.countP_append]

theorem drawCount_bind_draw {F : Type} (pass q : DRWPass) (fb : GPUFrameBuffer)
    (e : EEVEE_EffectsInfo F) :
    drawCount pass [Event.DRW_framebuffer_bind fb, Event.DRW_draw_pass q e] =
      if pass = q then 1 else 0 := by
  by_cases h : q = pass
  · subst h
    simp [drawCount, Event.isDraw]
  · have h2 : ¬ pass = q := fun hh => h hh.symm
    simp [drawCount, Event.isDraw, h, h2]

namespace RAS_EeveeEffectsManager

variable {F : Type}

/-- The downsample loop entered at `i` draws `bloom_downsample` once for each index from `i`
up to `bloom_iteration_ct - 1`, and draws no other pass. -/
theorem bloomDownsampleLoop_trace (s : RAS_EeveeEffectsManager F) (last : GPUTexture)
    (i : Int) :
    ∃ l, (bloomDownsampleLoop s last i).1.trace = s.trace ++ l ∧
      (∀ pass, drawCount pass l =
        if pass = DRWPass.bloom_downsample then (s.effects.bloom_iteration_ct - i).toNat
        else 0) ∧
      (bloomDownsampleLoop s last i).1.effects.bloom_iteration_ct =
        s.effects.bloom_iteration_ct := by
  induction s, last, i using bloomDownsampleLoop.induct with
  | case1 s last i h s1 s2 s3 ih =>
    rw [bloomDownsampleLoop, if_pos h]
    obtain ⟨l, hl, hc, hct⟩ := ih
    refine ⟨[Event.DRW_framebuffer_bind (s.fbl.bloom_down_fb i),
      Event.DRW_draw_pass DRWPass.bloom_downsample s1.effects] ++ l, ?_, ?_, ?_⟩
    · have h3 : s3.trace = s.trace ++ [Event.DRW_framebuffer_bind (s.fbl.bloom_down_fb i),
          Event.DRW_draw_pass DRWPass.bloom_downsample s1.effects] := by
        simp only [s3, s2, s1, emit, draw_pass, List.append_assoc, List.cons_append,
          List.nil_append]
      exact hl.trans (by rw [h3, List.append_assoc])
    · intro pass
      rw [drawCount_append, hc pass, drawCount_bind_draw]
      have h4 : s3.effects.bloom_iteration_ct = s.effects.bloom_iteration_ct := rfl
      rw [h4]
      split
      · omega
      · rfl
    · exact hct
  | case2 s last i h =>
    rw [bloomDownsampleLoop, if_neg h]
    refine ⟨[], by simp, fun pass => ?_, rfl⟩
    have : (s.effects.bloom_iteration_ct - i).toNat = 0 := by omega
    rw [this]
    simp [drawCount]

/-- The upsample loop entered at `i` draws `bloom_upsample` once for each index from `i`
down to 0, and draws no other pass. -/
theorem bloomUpsampleLoop_trace (s : RAS_EeveeEffectsManager F) (last : GPUTexture)
    (i : Int) :
    ∃ l, (bloomUpsampleLoop s last i).1.trace = s.trace ++ l ∧
      (∀ pass, drawCount pass l =
        if pass = DRWPass.bloom_upsample then (i + 1).toNat else 0) := by
  induction s, last, i using bloomUpsampleLoop.induct with
  | case1 s last i h s1 s2 s3 ih =>
    rw [bloomUpsampleLoop, if_pos h]
    obtain ⟨l, hl, hc⟩ := ih
    refine ⟨[Event.DRW_framebuffer_bind (s.fbl.bloom_accum_fb i),
      Event.DRW_draw_pass DRWPass.bloom_upsample s1.effects] ++ l, ?_, ?_⟩
    · have h3 : s3.trace = s.trace ++ [Event.DRW_framebuffer_bind (s.fbl.bloom_accum_fb i),
          Event.DRW_draw_pass DRWPass.bloom_upsample s1.effects] := by
        simp only [s3, s2, s1, emit, draw_pass, List.append_assoc, List.cons_append,
          List.nil_append]
      exact hl.trans (by rw [h3, List.append_assoc])
    · intro pass
      rw [drawCount_append, hc pass, drawCount_bind_draw]
      split
      · omega
      · rfl
  | case2 s last i h =>
    rw [bloomUpsampleLoop, if_neg h]
    refine ⟨[], by simp, fun pass => ?_⟩
    have : (i + 1).toNat = 0 := by omega
    rw [this]
    simp [drawCount]

theorem bloomBlit_trace (s : RAS_EeveeEffectsManager F) (p : FrameBufferPtr) :
    (bloomBlit s p).trace = s.trace ++
      [Event.DRW_framebuffer_bind s.fbl.bloom_blit_fb,
        Event.DRW_draw_pass DRWPass.bloom_blit (bloomBlit s p).effects] := by
  simp only [bloomBlit, emit, draw_pass, List.append_assoc, List.cons_append,
    List.nil_append]

theorem bloomDownsampleFirst_trace (s : RAS_EeveeEffectsManager F) :
    (bloomDownsampleFirst s).trace = s.trace ++
      [Event.DRW_framebuffer_bind (s.fbl.bloom_down_fb 0),
        Event.DRW_draw_pass DRWPass.bloom_downsample_first (bloomDownsampleFirst s).effects] := by
  simp only [bloomDownsampleFirst, emit, draw_pass, List.append_assoc, List.cons_append,
    List.nil_append]

theorem bloomResolve_trace (s : RAS_EeveeEffectsManager F) (last : GPUTexture) :
    (bloomResolve s last).1.trace = s.trace ++
      [Event.SetViewport 0 0 s.m_width s.m_height,
        Event.DRW_framebuffer_bind (GPUFrameBuffer.ofRAS s.m_bloomTarget),
        Event.DRW_draw_pass DRWPass.bloom_resolve (bloomResolve s last).1.effects] := by
  simp only [bloomResolve, emit, draw_pass, List.append_assoc, List.cons_append,
    List.nil_append]

/-- The draws of the downsample and upsample passes one `RenderBloom` issues when bloom is
on. -/
theorem RenderBloom_draws (X : Extern F) (s : RAS_EeveeEffectsManager F) (p : FrameBufferPtr)
    (he : s.enabled X.EFFECT_BLOOM = true) :
    ∃ l, (RenderBloom X s p).1.trace = s.trace ++ l ∧
      drawCount DRWPass.bloom_downsample_first l = 1 ∧
      drawCount DRWPass.bloom_downsample l = (s.effects.bloom_iteration_ct - 1).toNat ∧
      drawCount DRWPass.bloom_upsample l = (s.effects.bloom_iteration_ct - 1).toNat := by
  unfold RenderBloom
  rw [if_pos he]
  simp only []
  have hct2 : (bloomDownsampleFirst (bloomBlit s p)).effects.bloom_iteration_ct =
      s.effects.bloom_iteration_ct := by
    simp only [bloomDownsampleFirst, bloomBlit, emit, draw_pass]
  obtain ⟨ld, hd, hcd, hct⟩ := bloomDownsampleLoop_trace (bloomDownsampleFirst (bloomBlit s p))
    ((bloomDownsampleFirst (bloomBlit s p)).txl.bloom_downsample 0) 1
  generalize bloomDownsampleLoop (bloomDownsampleFirst (bloomBlit s p))
    ((bloomDownsampleFirst (bloomBlit s p)).txl.bloom_downsample 0) 1 = dn at hd hct ⊢
  obtain ⟨lu, hu, hcu⟩ := bloomUpsampleLoop_trace dn.1 dn.2 (dn.1.effects.bloom_iteration_ct - 2)
  generalize bloomUpsampleLoop dn.1 dn.2 (dn.1.effects.bloom_iteration_ct - 2) = up at hu ⊢
  rw [hct, hct2] at hcu
  rw [hct2] at hcd
  refine ⟨[Event.DRW_framebuffer_bind s.fbl.bloom_blit_fb,
      Event.DRW_draw_pass DRWPass.bloom_blit (bloomBlit s p).effects] ++
    ([Event.DRW_framebuffer_bind ((bloomBlit s p).fbl.bloom_down_fb 0),
      Event.DRW_draw_pass DRWPass.bloom_downsample_first
        (bloomDownsampleFirst (bloomBlit s p)).effects] ++
    (ld ++ (lu ++
    [Event.SetViewport 0 0 up.1.m_width up.1.m_height,
      Event.DRW_framebuffer_bind (GPUFrameBuffer.ofRAS up.1.m_bloomTarget),
      Event.DRW_draw_pass DRWPass.bloom_resolve (bloomResolve up.1 up.2).1.effects]))),
    ?_, ?_, ?_, ?_⟩
  · rw [bloomResolve_trace, hu, hd, bloomDownsampleFirst_trace, bloomBlit_trace]
    simp only [List.append_assoc]
  · simp only [drawCount_append, hcd, hcu, drawCount_bind_draw]
    simp [drawCount, Event.isDraw]
  · simp only [drawCount_append, hcd, hcu, drawCount_bind_draw]
    simp [drawCount, Event.isDraw]
  · simp only [drawCount_append, hcd, hcu, drawCount_bind_draw]
    simp only [drawCount, Event.isDraw, List.countP_cons, List.countP_nil]
    simp
    omega

/-- C7. For every value of `bloom_iteration_ct`, one `RenderBloom` call with bloom enabled
issues as many draws of `bloom_upsample` as it issues downsample draws (the one draw of
`bloom_downsample_first` and the draws of `bloom_downsample`) minus one. -/
theorem C7_bloom_upsample_count (X : Extern F) (s : RAS_EeveeEffectsManager F)
    (inputfb : FrameBufferPtr)
    (hBloom : s.effects.enabled_effects &&& X.EFFECT_BLOOM ≠ 0) :
    drawCount DRWPass.bloom_upsample (issued s (RenderBloom X s inputfb).1) + 1 =
      drawCount DRWPass.bloom_downsample_first (issued s (RenderBloom X s inputfb).1) +
      drawCount DRWPass.bloom_downsample (issued s (RenderBloom X s inputfb).1) ∧
    drawCount DRWPass.bloom_downsample_first (issued s (RenderBloom X s inputfb).1) = 1 ∧
    drawCount DRWPass.bloom_upsample (issued s (RenderBloom X s inputfb).1) =
      (s.effects.bloom_iteration_ct - 1).toNat := by
  have he : s.enabled X.EFFECT_BLOOM = true := by simpa [enabled] using hBloom
  obtain ⟨l, hl, h1, h2, h3⟩ := RenderBloom_draws X s inputfb he
  rw [issued_of_trace hl, h1, h2, h3]
  exact ⟨by omega, rfl, rfl⟩

/-- C7, evaluated: with `bloom_iteration_ct` equal to 4 there are three upsample draws. -/
theorem C7_bloom_upsample_count_witness :
    drawCount DRWPass.bloom_upsample (issued (exampleManager 2 4 8 0).2
      (RenderBloom exampleExtern (exampleManager 2 4 8 0).2 0).1) = 3 :=
  (C7_bloom_upsample_count exampleExtern (exampleManager 2 4 8 0).2 0 (by decide)).2.2

end RAS_EeveeEffectsManager

/-! ## Motion blur and the property set -/

namespace RAS_EeveeEffectsManager

variable {F : Type}

/-- The calls one `RenderMotionBlur` issues: three when the flag is set in the property set
at the time of the call, none otherwise. -/
theorem RenderMotionBlur_issued (X : Extern F) (host : Host F)
    (s : RAS_EeveeEffectsManager F) (p : FrameBufferPtr) :
    (issued s (RenderMotionBlur X host s p).1).length =
      if host.props.motion_blur_enable then 3 else 0 := by
  have h : ∃ l, (RenderMotionBlur X host s p).1.trace = s.trace ++ l ∧
      l.length = if host.props.motion_blur_enable then 3 else 0 := by
    simp only [RenderMotionBlur, emit, draw_pass, List.append_assoc, List.cons_append,
      List.nil_append]
    split
    · exact ⟨_, rfl, rfl⟩
    · exact ⟨[], (List.append_nil _).symm, rfl⟩
  obtain ⟨l, hl, hn⟩ := h
  rw [issued_of_trace hl, hn]

/-- C10, refuted as stated: two runs on the same constructed manager, the property set
holding `motion_blur_enable` true in one and false in the other when `RenderMotionBlur` is
called. The first returns the motion-blur target and issues three calls, the second returns
the input and issues none. -/
theorem C10_counterexample :
    (RenderMotionBlur exampleExtern (exampleHost true) (exampleManager 0 1 8 0).2 0).2 = 3 ∧
    (RenderMotionBlur exampleExtern (exampleHost false) (exampleManager 0 1 8 0).2 0).2 = 0 ∧
    (issued (exampleManager 0 1 8 0).2
      (RenderMotionBlur exampleExtern (exampleHost true) (exampleManager 0 1 8 0).2 0).1).length
      = 3 ∧
    (issued (exampleManager 0 1 8 0).2
      (RenderMotionBlur exampleExtern (exampleHost false) (exampleManager 0 1 8 0).2 0).1).length
      = 0 := by
  refine ⟨?_, ?_, ?_, ?_⟩
  · rw [RenderMotionBlur_snd]
    decide
  · rw [RenderMotionBlur_snd]
    decide
  · rw [RenderMotionBlur_issued]
    rfl
  · rw [RenderMotionBlur_issued]
    rfl

/-- C10, amended. The shutter duration and the sample count are read once, by the
constructor: two runs that differ only in the values the property set holds for
`motion_blur_shutter` and `motion_blur_samples` when `RenderMotionBlur` is called end in the
same state, return the same target and issue the same calls. The flag `motion_blur_enable`
is read from the property set at every call: the motion-blur target is returned when it is
set at that time, the input otherwise. -/
theorem C10_shutter_and_samples_read_once (X : Extern F) (host : Host F)
    (s : RAS_EeveeEffectsManager F) (inputfb : FrameBufferPtr) (shutter : F) (samples : Int) :
    RenderMotionBlur X
        { host with props := { host.props with
            motion_blur_shutter := shutter
            motion_blur_samples := samples } } s inputfb =
      RenderMotionBlur X host s inputfb ∧
    (RenderMotionBlur X host s inputfb).2 =
      (if host.props.motion_blur_enable then s.m_blurTarget else inputfb) :=
  ⟨rfl, RenderMotionBlur_snd X host s inputfb⟩

end RAS_EeveeEffectsManager

/-! ## Scratch textures of screen-space reflections and volumetrics -/

namespace RAS_EeveeEffectsManager

variable {F : Type}

/-- The attach loop entered at `i` only grows the trace: one attach to `screen_tracing_fb`
for each index from `i` up to `ssr_ray_count - 1`, in order. -/
theorem ssrAttachLoop_eq (s : RAS_EeveeEffectsManager F) (i : Int) :
    ssrAttachLoop s i = { s with trace := s.trace ++
      (List.range (s.effects.ssr_ray_count - i).toNat).map (fun k : Nat =>
        Event.DRW_framebuffer_texture_attach s.fbl.screen_tracing_fb
          (s.g_data.ssr_hit_output (i + k)) (i + k) 0) } := by
  induction s, i using ssrAttachLoop.induct with
  | case1 s i h ih =>
    rw [ssrAttachLoop, if_pos h, ih]
    obtain ⟨m, hm⟩ : ∃ m, (s.effects.ssr_ray_count - i).toNat = m + 1 :=
      ⟨(s.effects.ssr_ray_count - i).toNat - 1, by omega⟩
    have hm2 : (s.effects.ssr_ray_count - (i + 1)).toNat = m := by omega
    simp only [emit, hm, hm2, List.range_succ_eq_map, List.map_cons, List.map_map,
      List.append_assoc, List.singleton_append, Nat.cast_zero, add_zero]
    congr 2
    congr 1
    apply List.map_congr_left
    intro k _
    simp only [Function.comp, Nat.succ_eq_add_one, Nat.cast_add, Nat.cast_one]
    rw [show i + 1 + (k : Int) = i + ((k : Int) + 1) by omega]
  | case2 s i h =>
    rw [ssrAttachLoop, if_neg h]
    have : (s.effects.ssr_ray_count - i).toNat = 0 := by omega
    simp [this]

/-- The detach loop entered at `i` only grows the trace: one detach for each index from `i`
up to `ssr_ray_count - 1`, in order. -/
theorem ssrDetachLoop_eq (s : RAS_EeveeEffectsManager F) (i : Int) :
    ssrDetachLoop s i = { s with trace := s.trace ++
      (List.range (s.effects.ssr_ray_count - i).toNat).map (fun k : Nat =>
        Event.DRW_framebuffer_texture_detach (s.g_data.ssr_hit_output (i + k))) } := by
  induction s, i using ssrDetachLoop.induct with
  | case1 s i h ih =>
    rw [ssrDetachLoop, if_pos h, ih]
    obtain ⟨m, hm⟩ : ∃ m, (s.effects.ssr_ray_count - i).toNat = m + 1 :=
      ⟨(s.effects.ssr_ray_count - i).toNat - 1, by omega⟩
    have hm2 : (s.effects.ssr_ray_count - (i + 1)).toNat = m := by omega
    simp only [emit, hm, hm2, List.range_succ_eq_map, List.map_cons, List.map_map,
      List.append_assoc, List.singleton_append, Nat.cast_zero, add_zero]
    congr 2
    congr 1
    apply List.map_congr_left
    intro k _
    simp only [Function.comp, Nat.succ_eq_add_one, Nat.cast_add, Nat.cast_one]
    rw [show i + 1 + (k : Int) = i + ((k : Int) + 1) by omega]
  | case2 s i h =>
    rw [ssrDetachLoop, if_neg h]
    have : (s.effects.ssr_ray_count - i).toNat = 0 := by omega
    simp [this]

/-- The calls one `DoSSR` issues when screen-space reflections are on: the depth
replacement and the attach loop; the raytrace and the detach loop; the downsample, the
resolve into the input and the restore of the input's own attachments. -/
theorem DoSSR_trace (X : Extern F) (host : Host F) (s : RAS_EeveeEffectsManager F)
    (p : FrameBufferPtr) (he : s.enabled X.EFFECT_SSR = true) :
    (DoSSR X host s p).trace = s.trace ++
      (([Event.EEVEE_effects_replace_e_data_depth (GPUTexture.depth (GPUFrameBuffer.ofRAS p))] ++
        (List.range s.effects.ssr_ray_count.toNat).map (fun k : Nat =>
          Event.DRW_framebuffer_texture_attach s.fbl.screen_tracing_fb
            (s.g_data.ssr_hit_output k) k 0)) ++
      ([Event.DRW_framebuffer_bind s.fbl.screen_tracing_fb,
          Event.DRW_draw_pass DRWPass.ssr_raytrace s.effects] ++
        (List.range s.effects.ssr_ray_count.toNat).map (fun k : Nat =>
          Event.DRW_framebuffer_texture_detach (s.g_data.ssr_hit_output k))) ++
      [Event.EEVEE_downsample_buffer s.fbl.downsample_fb
          (GPUTexture.color (GPUFrameBuffer.ofRAS p)) 9,
        Event.DRW_framebuffer_texture_detach (GPUTexture.depth (GPUFrameBuffer.ofRAS p)),
        Event.DRW_framebuffer_texture_detach s.txl.ssr_normal_input,
        Event.DRW_framebuffer_texture_detach s.txl.ssr_specrough_input,
        Event.DRW_framebuffer_bind (GPUFrameBuffer.ofRAS p),
        Event.DRW_draw_pass DRWPass.ssr_resolve s.effects,
        Event.DRW_framebuffer_texture_attach (GPUFrameBuffer.ofRAS p)
          (GPUTexture.depth (GPUFrameBuffer.ofRAS p)) 0 0,
        Event.DRW_framebuffer_texture_attach (GPUFrameBuffer.ofRAS p)
          s.txl.ssr_normal_input 1 0,
        Event.DRW_framebuffer_texture_attach (GPUFrameBuffer.ofRAS p)
          s.txl.ssr_specrough_input 2 0]) := by
  unfold DoSSR
  rw [if_pos he]
  simp only []
  rw [ssrDetachLoop_eq, ssrAttachLoop_eq]
  simp only [ssrResolve, ssrRaytrace, ssrSetup, emit, draw_pass, List.append_assoc,
    List.cons_append, List.nil_append, Int.sub_zero, Int.zero_add]

/-- The calls one `RenderVolumetrics` issues when volumetrics are on and the world has a
node tree in use: everything up to the resolve draws, then the detach calls. -/
theorem RenderVolumetrics_trace (X : Extern F) (host : Host F)
    (s : RAS_EeveeEffectsManager F) (p : FrameBufferPtr)
    (he : (s.enabled X.EFFECT_VOLUMETRIC && s.m_useVolumetricNodes) = true) :
    (RenderVolumetrics X host s p).1.trace = s.trace ++
      (([Event.EEVEE_effects_replace_e_data_depth (GPUTexture.depth (GPUFrameBuffer.ofRAS p)),
          Event.DRW_framebuffer_texture_attach s.fbl.volumetric_fb s.g_data.volumetric 0 0] ++
        (if host.use_colored_transmit then
          [Event.DRW_framebuffer_texture_attach s.fbl.volumetric_fb
            s.g_data.volumetric_transmit 1 0]
        else []) ++
        [Event.DRW_framebuffer_bind s.fbl.volumetric_fb,
          Event.DRW_draw_pass DRWPass.volumetric_integrate_ps s.effects,
          Event.SetViewport 0 0 s.m_width s.m_height,
          Event.DRW_framebuffer_bind (GPUFrameBuffer.ofRAS p)] ++
        (if host.use_colored_transmit then
          [Event.DRW_draw_pass DRWPass.volumetric_resolve_transmit_ps s.effects]
        else []) ++
        [Event.DRW_draw_pass DRWPass.volumetric_resolve_ps s.effects]) ++
      ([Event.DRW_framebuffer_texture_detach s.g_data.volumetric] ++
        (if host.use_colored_transmit then
          [Event.DRW_framebuffer_texture_detach s.g_data.volumetric_transmit]
        else []))) := by
  unfold RenderVolumetrics
  rw [if_pos he]
  simp only [volumetricRestore, volumetricResolve, volumetricIntegrate, emit, draw_pass]
  cases host.use_colored_transmit <;>
    simp only [if_true, if_false, Bool.false_eq_true, List.append_assoc, List.cons_append,
      List.nil_append, List.append_nil]

theorem attaches_append (a b : List (Event F)) :
    attaches (a ++ b) = attaches a ++ attaches b := by
  simp [attaches]

theorem detaches_append (a b : List (Event F)) :
    detaches (a ++ b) = detaches a ++ detaches b := by
  simp [detaches]

theorem attaches_map_attach (fb : GPUFrameBuffer) (tex : Nat → GPUTexture) (slot : Nat → Int)
    (l : List Nat) :
    attaches (l.map (fun k => (Event.DRW_framebuffer_texture_attach fb (tex k) (slot k) 0 :
      Event F))) = l.map (fun k => (fb, tex k)) := by
  induction l with
  | nil => rfl
  | cons a l ih =>
    rw [attaches] at ih
    simp [attaches, attachOf, ih]

theorem detaches_map_attach (fb : GPUFrameBuffer) (tex : Nat → GPUTexture) (slot : Nat → Int)
    (l : List Nat) :
    detaches (l.map (fun k => (Event.DRW_framebuffer_texture_attach fb (tex k) (slot k) 0 :
      Event F))) = [] := by
  induction l with
  | nil => rfl
  | cons a l ih =>
    rw [detaches] at ih
    simp [detaches, detachOf, ih]

theorem attaches_map_detach (tex : Nat → GPUTexture) (l : List Nat) :
    attaches (l.map (fun k => (Event.DRW_framebuffer_texture_detach (tex k) : Event F))) =
      [] := by
  induction l with
  | nil => rfl
  | cons a l ih =>
    rw [attaches] at ih
    simp [attaches, attachOf, ih]

theorem detaches_map_detach (tex : Nat → GPUTexture) (l : List Nat) :
    detaches (l.map (fun k => (Event.DRW_framebuffer_texture_detach (tex k) : Event F))) =
      l.map tex := by
  induction l with
  | nil => rfl
  | cons a l ih =>
    rw [detaches] at ih
    simp [detaches, detachOf, ih]

/-- C12. Attach and detach of scratch textures are paired within each stage.
With screen-space reflections on, the calls of one `DoSSR` fall into three consecutive parts:
the first attaches `ssr_hit_output[i]` to `screen_tracing_fb` for each `i` below
`ssr_ray_count`, in order, and detaches nothing; the second attaches nothing and detaches
exactly those textures, each once, in the same order; the third detaches and attaches back
only the depth, normal and specular-roughness textures of the input target.
With volumetrics on, the calls of one `RenderVolumetrics` fall into two consecutive parts:
the first attaches `volumetric`, and `volumetric_transmit` when colored transmittance is on,
to `volumetric_fb` and detaches nothing; the second attaches nothing and detaches exactly
those textures, each once. This holds for every `ssr_ray_count` and either value of
`use_colored_transmit`. -/
theorem C12_scratch_attach_detach_paired (X : Extern F) (host : Host F)
    (s : RAS_EeveeEffectsManager F) (inputfb : FrameBufferPtr) :
    (s.effects.enabled_effects &&& X.EFFECT_SSR ≠ 0 →
      ∃ l₁ l₂ l₃ : List (Event F),
        issued s (DoSSR X host s inputfb) = l₁ ++ l₂ ++ l₃ ∧
        attaches l₁ = (ssrHitOutputs s).map (fun t => (s.fbl.screen_tracing_fb, t)) ∧
        detaches l₁ = [] ∧
        attaches l₂ = [] ∧
        detaches l₂ = ssrHitOutputs s ∧
        detaches l₃ = [GPUTexture.depth (GPUFrameBuffer.ofRAS inputfb),
          s.txl.ssr_normal_input, s.txl.ssr_specrough_input] ∧
        attaches l₃ = [(GPUFrameBuffer.ofRAS inputfb,
            GPUTexture.depth (GPUFrameBuffer.ofRAS inputfb)),
          (GPUFrameBuffer.ofRAS inputfb, s.txl.ssr_normal_input),
          (GPUFrameBuffer.ofRAS inputfb, s.txl.ssr_specrough_input)]) ∧
    (s.effects.enabled_effects &&& X.EFFECT_VOLUMETRIC ≠ 0 → s.m_useVolumetricNodes = true →
      ∃ l₁ l₂ : List (Event F),
        issued s (RenderVolumetrics X host s inputfb).1 = l₁ ++ l₂ ∧
        attaches l₁ = (volumetricScratch host s).map (fun t => (s.fbl.volumetric_fb, t)) ∧
        detaches l₁ = [] ∧
        attaches l₂ = [] ∧
        detaches l₂ = volumetricScratch host s) := by
  constructor
  · intro hSsr
    have he : s.enabled X.EFFECT_SSR = true := by simpa [enabled] using hSsr
    refine ⟨_, _, _, issued_of_trace (DoSSR_trace X host s inputfb he), ?_, ?_, ?_, ?_, ?_, ?_⟩
    · rw [attaches_append, attaches_map_attach, ssrHitOutputs, List.map_map]
      simp [attaches, attachOf, Function.comp]
    · rw [detaches_append, detaches_map_attach]
      rfl
    · rw [attaches_append, attaches_map_detach]
      rfl
    · rw [detaches_append, detaches_map_detach, ssrHitOutputs]
      simp [detaches, detachOf]
    · rfl
    · rfl
  · intro hVol hNodes
    have he : (s.enabled X.EFFECT_VOLUMETRIC && s.m_useVolumetricNodes) = true := by
      rw [hNodes, Bool.and_true]
      simpa [enabled] using hVol
    refine ⟨_, _, issued_of_trace (RenderVolumetrics_trace X host s inputfb he), ?_, ?_, ?_, ?_⟩
    · cases h : host.use_colored_transmit <;>
        simp [volumetricScratch, h, attaches, attachOf]
    · cases h : host.use_colored_transmit <;>
        simp [detaches, detachOf]
    · cases h : host.use_colored_transmit <;>
        simp [attaches, attachOf]
    · cases h : host.use_colored_transmit <;>
        simp [volumetricScratch, h, detaches, detachOf]

/-- C12, evaluated: three SSR rays and colored transmittance on. `DoSSR` attaches textures
300, 301, 302 to framebuffer 6 and detaches 300, 301, 302 before it detaches and restores
the input's depth, normal (6) and specular-roughness (7) textures; `RenderVolumetrics`
attaches textures 8 and 9 to framebuffer 5 and detaches 8 and 9. -/
theorem C12_scratch_attach_detach_paired_witness :
    attaches (issued exampleScratchManager
      (DoSSR exampleExtern { exampleHost false with use_colored_transmit := true }
        exampleScratchManager 0)) =
      [(GPUFrameBuffer.obj 6, GPUTexture.obj 300), (GPUFrameBuffer.obj 6, GPUTexture.obj 301),
        (GPUFrameBuffer.obj 6, GPUTexture.obj 302),
        (GPUFrameBuffer.ofRAS 0, GPUTexture.depth (GPUFrameBuffer.ofRAS 0)),
        (GPUFrameBuffer.ofRAS 0, GPUTexture.obj 6), (GPUFrameBuffer.ofRAS 0, GPUTexture.obj 7)] ∧
    detaches (issued exampleScratchManager
      (DoSSR exampleExtern { exampleHost false with use_colored_transmit := true }
        exampleScratchManager 0)) =
      [GPUTexture.obj 300, GPUTexture.obj 301, GPUTexture.obj 302,
        GPUTexture.depth (GPUFrameBuffer.ofRAS 0), GPUTexture.obj 6, GPUTexture.obj 7] ∧
    attaches (issued exampleScratchManager
      (RenderVolumetrics exampleExtern { exampleHost false with use_colored_transmit := true }
        exampleScratchManager 0).1) =
      [(GPUFrameBuffer.obj 5, GPUTexture.obj 8), (GPUFrameBuffer.obj 5, GPUTexture.obj 9)] ∧
    detaches (issued exampleScratchManager
      (RenderVolumetrics exampleExtern { exampleHost false with use_colored_transmit := true }
        exampleScratchManager 0).1) = [GPUTexture.obj 8, GPUTexture.obj 9] := by
  have h := C12_scratch_attach_detach_paired exampleExtern
    { exampleHost false with use_colored_transmit := true } exampleScratchManager 0
  obtain ⟨l₁, l₂, l₃, hl, ha1, hd1, ha2, hd2, hd3, ha3⟩ := h.1 (by decide)
  obtain ⟨m₁, m₂, hm, hb1, he1, hb2, he2⟩ := h.2 (by decide) rfl
  rw [hl, hm]
  simp only [attaches_append, detaches_append, ha1, hd1, ha2, hd2, hd3, ha3, hb1, he1, hb2,
    he2, List.nil_append, List.append_nil]
  refine ⟨?_, ?_, ?_, ?_⟩ <;> rfl

/-! ## The chain motion blur, depth of field, bloom -/

theorem stageSources_append (a b : List (Event F)) :
    stageSources (a ++ b) = stageSources a ++ stageSources b := by
  simp [stageSources]

theorem stageSources_nil_of_drawCount (l : List (Event F))
    (h1 : drawCount DRWPass.motion_blur l = 0) (h2 : drawCount DRWPass.dof_down l = 0)
    (h3 : drawCount DRWPass.bloom_blit l = 0) : stageSources l = [] := by
  induction l with
  | nil => rfl
  | cons e l ih =>
    simp only [drawCount, List.countP_cons] at h1 h2 h3
    have ih2 := ih (by simp only [drawCount]; omega) (by simp only [drawCount]; omega)
      (by simp only [drawCount]; omega)
    rw [stageSources] at ih2 ⊢
    cases e with
    | DRW_draw_pass pass eff =>
      cases pass <;> simp_all [Event.isDraw, stageSource]
    | _ => simp [stageSource, ih2]

theorem stageSources_map_attach (fb : GPUFrameBuffer) (tex : Nat → GPUTexture)
    (slot : Nat → Int) (l : List Nat) :
    stageSources (l.map (fun k => (Event.DRW_framebuffer_texture_attach fb (tex k) (slot k) 0 :
      Event F))) = [] := by
  induction l with
  | nil => rfl
  | cons a l ih =>
    rw [stageSources] at ih
    simp [stageSources, stageSource, ih]

theorem stageSources_map_detach (tex : Nat → GPUTexture) (l : List Nat) :
    stageSources (l.map (fun k => (Event.DRW_framebuffer_texture_detach (tex k) : Event F))) =
      [] := by
  induction l with
  | nil => rfl
  | cons a l ih =>
    rw [stageSources] at ih
    simp [stageSources, stageSource, ih]

theorem trace_chain {s t u : RAS_EeveeEffectsManager F} {l₁ l₂ : List (Event F)}
    (h₁ : t.trace = s.trace ++ l₁) (h₂ : u.trace = t.trace ++ l₂) :
    u.trace = s.trace ++ (l₁ ++ l₂) := by
  rw [h₂, h₁, List.append_assoc]

theorem taaSample_quiet (X : Extern F) (s : RAS_EeveeEffectsManager F) (v : Bool)
    (a b : Mat4 F) :
    ∃ l, (taaSample X s v a b).trace = s.trace ++ l ∧ stageSources l = [] := by
  simp only [taaSample, emit, List.append_assoc, List.cons_append, List.nil_append]
  split
  · exact ⟨_, rfl, rfl⟩
  · exact ⟨[], (List.append_nil _).symm, rfl⟩

theorem taaResolve_quiet (s : RAS_EeveeEffectsManager F) (p : FrameBufferPtr) :
    ∃ l, (taaResolve s p).trace = s.trace ++ l ∧ stageSources l = [] := by
  simp only [taaResolve, emit, draw_pass, List.append_assoc, List.cons_append,
    List.nil_append]
  split
  · exact ⟨_, rfl, rfl⟩
  · exact ⟨_, rfl, rfl⟩

theorem taaRedraw_quiet (host : Host F) (s : RAS_EeveeEffectsManager F)
    (p : FrameBufferPtr) :
    ∃ l, (taaRedraw host s p).trace = s.trace ++ l ∧ stageSources l = [] := by
  simp only [taaRedraw, emit, List.append_assoc, List.cons_append, List.nil_append]
  split
  · exact ⟨_, rfl, rfl⟩
  · exact ⟨[], (List.append_nil _).symm, rfl⟩

theorem DoTaa_quiet (X : Extern F) (host : Host F) (s : RAS_EeveeEffectsManager F)
    (p : FrameBufferPtr) :
    ∃ l, (DoTaa X host s p).trace = s.trace ++ l ∧ stageSources l = [] := by
  unfold DoTaa
  split
  · simp only []
    have h0 : (taaRecordView X host s).trace = s.trace := rfl
    obtain ⟨l1, h1, q1⟩ := taaSample_quiet X (taaRecordView X host s) (taaViewIsValid X host s)
      (taaPersmat X host) (X.MT_Matrix4x4_getValue host.cam.modelview)
    generalize taaSample X (taaRecordView X host s) (taaViewIsValid X host s)
      (taaPersmat X host) (X.MT_Matrix4x4_getValue host.cam.modelview) = t1 at h1 ⊢
    obtain ⟨l2, h2, q2⟩ := taaResolve_quiet t1 p
    generalize taaResolve t1 p = t2 at h2 ⊢
    obtain ⟨l3, h3, q3⟩ := taaRedraw_quiet host t2 p
    refine ⟨l1 ++ (l2 ++ l3), ?_, ?_⟩
    · rw [h3, h2, h1, h0]
      simp only [List.append_assoc]
    · simp only [stageSources_append, q1, q2, q3, List.append_nil]
  · exact ⟨[], (List.append_nil _).symm, rfl⟩

theorem CreateMinMaxDepth_quiet (X : Extern F) (s : RAS_EeveeEffectsManager F)
    (p : FrameBufferPtr) :
    ∃ l, (CreateMinMaxDepth X s p).trace = s.trace ++ l ∧ stageSources l = [] := by
  simp only [CreateMinMaxDepth, emit]
  split
  · exact ⟨_, rfl, rfl⟩
  · exact ⟨[], (List.append_nil _).symm, rfl⟩

theorem DoSSR_quiet (X : Extern F) (host : Host F) (s : RAS_EeveeEffectsManager F)
    (p : FrameBufferPtr) :
    ∃ l, (DoSSR X host s p).trace = s.trace ++ l ∧ stageSources l = [] := by
  cases he : s.enabled X.EFFECT_SSR
  · refine ⟨[], ?_, rfl⟩
    unfold DoSSR
    simp [he]
  · refine ⟨_, DoSSR_trace X host s p he, ?_⟩
    simp only [stageSources_append, stageSources_map_attach, stageSources_map_detach]
    rfl

theorem RenderVolumetrics_quiet (X : Extern F) (host : Host F)
    (s : RAS_EeveeEffectsManager F) (p : FrameBufferPtr) :
    ∃ l, (RenderVolumetrics X host s p).1.trace = s.trace ++ l ∧ stageSources l = [] := by
  cases he : (s.enabled X.EFFECT_VOLUMETRIC && s.m_useVolumetricNodes)
  · refine ⟨[], ?_, rfl⟩
    unfold RenderVolumetrics
    simp [he]
  · refine ⟨_, RenderVolumetrics_trace X host s p he, ?_⟩
    cases host.use_colored_transmit <;> rfl

/-- Motion blur, when the flag is set at the time of the call, draws once, reading the colour
texture of the target it was given. -/
theorem RenderMotionBlur_stage (X : Extern F) (host : Host F)
    (s : RAS_EeveeEffectsManager F) (p : FrameBufferPtr) :
    ∃ l, (RenderMotionBlur X host s p).1.trace = s.trace ++ l ∧
      stageSources l =
        if host.props.motion_blur_enable then
          [(DRWPass.motion_blur, GPUTexture.color (GPUFrameBuffer.ofRAS p))]
        else [] := by
  simp only [RenderMotionBlur, emit, draw_pass, List.append_assoc, List.cons_append,
    List.nil_append]
  split
  · exact ⟨_, rfl, rfl⟩
  · exact ⟨[], (List.append_nil _).symm, rfl⟩

/-- Depth of field, when enabled, opens with the downsample draw, reading the colour texture
of the target it was given. -/
theorem RenderDof_stage (X : Extern F) (host : Host F)
    (s : RAS_EeveeEffectsManager F) (p : FrameBufferPtr) :
    ∃ l, (RenderDof X host s p).1.trace = s.trace ++ l ∧
      stageSources l =
        if s.enabled X.EFFECT_DOF then
          [(DRWPass.dof_down, GPUTexture.color (GPUFrameBuffer.ofRAS p))]
        else [] := by
  cases he : s.enabled X.EFFECT_DOF
  · refine ⟨[], ?_, rfl⟩
    unfold RenderDof
    simp [he]
  · refine ⟨_, RenderDof_trace X host s p he, ?_⟩
    have hsrc : ∀ t : RAS_EeveeEffectsManager F,
        (dofDownsample t p).effects.source_buffer =
          GPUTexture.color (GPUFrameBuffer.ofRAS p) := fun _ => rfl
    have hlazy : stageSources
        (if s.m_dofInitialized then [] else [Event.InitDof] : List (Event F)) = [] := by
      split <;> rfl
    rw [stageSources_append, hlazy]
    simp only [stageSources, List.filterMap_cons, stageSource, List.filterMap_nil,
      List.nil_append, hsrc, if_true]

/-- Bloom, when enabled, opens with the blit draw, reading the colour texture of the target
it was given. -/
theorem RenderBloom_stage (X : Extern F) (s : RAS_EeveeEffectsManager F)
    (p : FrameBufferPtr) :
    ∃ l, (RenderBloom X s p).1.trace = s.trace ++ l ∧
      stageSources l =
        if s.enabled X.EFFECT_BLOOM then
          [(DRWPass.bloom_blit, GPUTexture.color (GPUFrameBuffer.ofRAS p))]
        else [] := by
  cases he : s.enabled X.EFFECT_BLOOM
  · refine ⟨[], ?_, rfl⟩
    unfold RenderBloom
    simp [he]
  · unfold RenderBloom
    rw [if_pos he]
    simp only []
    obtain ⟨ld, hd, hcd, -⟩ := bloomDownsampleLoop_trace (bloomDownsampleFirst (bloomBlit s p))
      ((bloomDownsampleFirst (bloomBlit s p)).txl.bloom_downsample 0) 1
    generalize bloomDownsampleLoop (bloomDownsampleFirst (bloomBlit s p))
      ((bloomDownsampleFirst (bloomBlit s p)).txl.bloom_downsample 0) 1 = dn at hd ⊢
    obtain ⟨lu, hu, hcu⟩ := bloomUpsampleLoop_trace dn.1 dn.2
      (dn.1.effects.bloom_iteration_ct - 2)
    generalize bloomUpsampleLoop dn.1 dn.2 (dn.1.effects.bloom_iteration_ct - 2) = up at hu ⊢
    have qd : stageSources ld = [] :=
      stageSources_nil_of_drawCount ld (by rw [hcd]; rfl) (by rw [hcd]; rfl)
        (by rw [hcd]; rfl)
    have qu : stageSources lu = [] :=
      stageSources_nil_of_drawCount lu (by rw [hcu]; rfl) (by rw [hcu]; rfl)
        (by rw [hcu]; rfl)
    have hsrc : (bloomBlit s p).effects.source_buffer =
        GPUTexture.color (GPUFrameBuffer.ofRAS p) := by
      simp only [bloomBlit, emit, draw_pass]
    refine ⟨[Event.DRW_framebuffer_bind s.fbl.bloom_blit_fb,
        Event.DRW_draw_pass DRWPass.bloom_blit (bloomBlit s p).effects] ++
      ([Event.DRW_framebuffer_bind ((bloomBlit s p).fbl.bloom_down_fb 0),
        Event.DRW_draw_pass DRWPass.bloom_downsample_first
          (bloomDownsampleFirst (bloomBlit s p)).effects] ++
      (ld ++ (lu ++
      [Event.SetViewport 0 0 up.1.m_width up.1.m_height,
        Event.DRW_framebuffer_bind (GPUFrameBuffer.ofRAS up.1.m_bloomTarget),
        Event.DRW_draw_pass DRWPass.bloom_resolve (bloomResolve up.1 up.2).1.effects]))),
      ?_, ?_⟩
    · rw [bloomResolve_trace, hu, hd, bloomDownsampleFirst_trace, bloomBlit_trace]
      simp only [List.append_assoc]
    · simp only [stageSources_append, qd, qu, List.nil_append]
      simp only [stageSources, List.filterMap_cons, stageSource, List.filterMap_nil,
        List.nil_append, List.append_nil, hsrc, List.singleton_append, if_true]

/-- C11. For every subset of active toggles, in the chain motion blur, depth of field,
bloom of `RenderEeveeEffects`, a disabled stage issues no draw and passes its input on, and
each enabled stage reads as its source the colour texture of the target returned by the
nearest preceding enabled stage among the three, or of the original input if there is none
(`RenderVolumetrics` always hands back its input and `DoSSR` returns nothing). The target
returned is the bloom target if bloom is enabled, otherwise the depth-of-field target if
depth of field is enabled, otherwise the motion-blur target if motion blur is enabled,
otherwise the original input. -/
theorem C11_disabled_stages_pass_through (X : Extern F) (host : Host F)
    (s : RAS_EeveeEffectsManager F) (inputfb : FrameBufferPtr) :
    stageSources (issued s (RenderEeveeEffects X host s inputfb).1) =
      (if host.props.motion_blur_enable then
        [(DRWPass.motion_blur, GPUTexture.color (GPUFrameBuffer.ofRAS inputfb))]
      else []) ++
      ((if s.enabled X.EFFECT_DOF then
        [(DRWPass.dof_down, GPUTexture.color (GPUFrameBuffer.ofRAS
          (if host.props.motion_blur_enable then s.m_blurTarget else inputfb)))]
      else []) ++
      (if s.enabled X.EFFECT_BLOOM then
        [(DRWPass.bloom_blit, GPUTexture.color (GPUFrameBuffer.ofRAS
          (if s.enabled X.EFFECT_DOF then s.m_dofTarget
           else if host.props.motion_blur_enable then s.m_blurTarget
           else inputfb)))]
      else [])) ∧
    (RenderEeveeEffects X host s inputfb).2 =
      (if s.enabled X.EFFECT_BLOOM then s.m_bloomTarget
       else if s.enabled X.EFFECT_DOF then s.m_dofTarget
       else if host.props.motion_blur_enable then s.m_blurTarget
       else inputfb) ∧
    (∀ (t : RAS_EeveeEffectsManager F) (p : FrameBufferPtr),
      (RenderVolumetrics X host t p).2 = p) := by
  refine ⟨?_, RenderEeveeEffects_snd X host s inputfb, RenderVolumetrics_snd X host⟩
  unfold RenderEeveeEffects
  dsimp only
  obtain ⟨l0, t0, q0⟩ := DoTaa_quiet X host s inputfb
  have e0 := static_DoTaa X host s inputfb
  generalize DoTaa X host s inputfb = a0 at t0 e0 ⊢
  have t0' : (a0.emit Event.Disable_RAS_DEPTH_TEST).trace =
      a0.trace ++ [Event.Disable_RAS_DEPTH_TEST] := rfl
  have e0' : static (a0.emit Event.Disable_RAS_DEPTH_TEST) = static a0 := rfl
  generalize a0.emit Event.Disable_RAS_DEPTH_TEST = a1 at t0' e0' ⊢
  obtain ⟨l2, t2, q2⟩ := CreateMinMaxDepth_quiet X a1 inputfb
  have e2 := static_CreateMinMaxDepth X a1 inputfb
  generalize CreateMinMaxDepth X a1 inputfb = a2 at t2 e2 ⊢
  obtain ⟨l3, t3, q3⟩ := DoSSR_quiet X host a2 inputfb
  have e3 := static_DoSSR X host a2 inputfb
  generalize DoSSR X host a2 inputfb = a3 at t3 e3 ⊢
  obtain ⟨l4, t4, q4⟩ := RenderVolumetrics_quiet X host a3 inputfb
  have e4 := static_RenderVolumetrics X host a3 inputfb
  have p4 := RenderVolumetrics_snd X host a3 inputfb
  generalize RenderVolumetrics X host a3 inputfb = r4 at t4 e4 p4 ⊢
  have es4 : static r4.1 = static s := by rw [e4, e3, e2, e0', e0]
  obtain ⟨l5, t5, q5⟩ := RenderMotionBlur_stage X host r4.1 r4.2
  have e5 := static_RenderMotionBlur X host r4.1 r4.2
  have p5 := RenderMotionBlur_snd X host r4.1 r4.2
  generalize RenderMotionBlur X host r4.1 r4.2 = r5 at t5 e5 p5 ⊢
  have es5 : static r5.1 = static s := by rw [e5, es4]
  obtain ⟨l6, t6, q6⟩ := RenderDof_stage X host r5.1 r5.2
  have e6 := static_RenderDof X host r5.1 r5.2
  have p6 := RenderDof_snd X host r5.1 r5.2
  generalize RenderDof X host r5.1 r5.2 = r6 at t6 e6 p6 ⊢
  have es6 : static r6.1 = static s := by rw [e6, es5]
  obtain ⟨l7, t7, q7⟩ := RenderBloom_stage X r6.1 r6.2
  generalize RenderBloom X r6.1 r6.2 = r7 at t7 ⊢
  have hblur : r4.1.m_blurTarget = s.m_blurTarget := by
    simp only [static, Prod.mk.injEq] at es4
    exact es4.2.2.1
  have hdof : r5.1.m_dofTarget = s.m_dofTarget := by
    simp only [static, Prod.mk.injEq] at es5
    exact es5.2.2.2.1
  rw [p4, hblur] at p5
  rw [enabled_of_static es5, p5, hdof] at p6
  rw [p4] at q5
  rw [enabled_of_static es5, p5] at q6
  rw [enabled_of_static es6, p6] at q7
  have ht : (r7.1.emit Event.Enable_RAS_DEPTH_TEST).trace = s.trace ++
      (l0 ++ ([Event.Disable_RAS_DEPTH_TEST] ++ (l2 ++ (l3 ++ (l4 ++ (l5 ++ (l6 ++
        (l7 ++ [Event.Enable_RAS_DEPTH_TEST])))))))) := by
    show r7.1.trace ++ [Event.Enable_RAS_DEPTH_TEST] = _
    rw [t7, t6, t5, t4, t3, t2, t0', t0]
    simp only [List.append_assoc]
  rw [issued_of_trace ht]
  simp only [stageSources_append, q0, q2, q3, q4, q5, q6, q7, List.nil_append]
  have hd : stageSources ([Event.Disable_RAS_DEPTH_TEST] : List (Event F)) = [] := rfl
  have hn : stageSources ([Event.Enable_RAS_DEPTH_TEST] : List (Event F)) = [] := rfl
  rw [hd, hn, List.nil_append, List.append_nil]

/-- C11, evaluated: motion blur and bloom on, depth of field off (mask 2). Motion blur
reads input 0, bloom reads the motion-blur target (address 3) as if depth of field were not
there, and the bloom target (address 2) is returned. -/
theorem C11_disabled_stages_pass_through_witness :
    stageSources (issued (exampleManager 2 1 8 0).2
      (RenderEeveeEffects exampleExtern (exampleHost true) (exampleManager 2 1 8 0).2 0).1) =
      [(DRWPass.motion_blur, GPUTexture.color (GPUFrameBuffer.ofRAS 0)),
        (DRWPass.bloom_blit, GPUTexture.color (GPUFrameBuffer.ofRAS 3))] ∧
    (RenderEeveeEffects exampleExtern (exampleHost true) (exampleManager 2 1 8 0).2 0).2 = 2 :=
  ⟨(C11_disabled_stages_pass_through exampleExtern (exampleHost true)
      (exampleManager 2 1 8 0).2 0).1,
   (C11_disabled_stages_pass_through exampleExtern (exampleHost true)
      (exampleManager 2 1 8 0).2 0).2.1⟩

end RAS_EeveeEffectsManager

end Upbge
